import Mathlib

/-!
Verification development for the fact-checker backend pipeline
(`backend/services/pathway_service.py`, `backend/services/llama_service.py`,
`backend/services/fact_checker.py`, `backend/models/memory_store.py`,
`backend/main.py`).

The Python code is shallowly embedded: pure functions become Lean functions
over `String` / `List Char`, Python `float` arithmetic on plain decimal
constants is modelled by `ℚ`, Python values flowing through dictionaries are
modelled by the dynamic type `PyVal`, and Python exceptions are modelled by
`Except PyErr`.  Strings are treated as sequences of characters; ASCII
case-mapping models Python `str.lower` (no claim depends on non-ASCII
case-mapping).
-/

namespace FactChecker

/-! ## Python string primitives -/

/-- Python `str.lower`, character-wise ASCII lowering. -/
def pyLower (s : String) : String := ⟨s.data.map Char.toLower⟩

/-- Python whitespace set used by `str.split()` / `str.strip()`. -/
def pyIsSpace (c : Char) : Bool :=
  c == ' ' || c == '\t' || c == '\n' || c == '\r' || c == '\x0b' || c == '\x0c'

/-- Python `str.strip()` with no arguments. -/
def pyStrip (s : String) : String :=
  ⟨((s.data.dropWhile pyIsSpace).reverse.dropWhile pyIsSpace).reverse⟩

/-- Substring test: Python `needle in hay` on strings. -/
def containsSub (needle hay : List Char) : Bool :=
  match hay with
  | [] => needle.isPrefixOf []
  | _ :: tl => needle.isPrefixOf hay || containsSub needle tl

/-- Python `w in s` for strings. -/
def strIn (needle hay : String) : Bool := containsSub needle.data hay.data

/-- Regex word character `\w` (ASCII fragment): letters, digits, underscore. -/
def isWordChar (c : Char) : Bool := c.isAlpha || c.isDigit || c == '_'

/-- Python `min(a, b)` on numbers (kernel-reducible, unlike the lattice `⊓`). -/
def pyMin (a b : ℚ) : ℚ := if a ≤ b then a else b

/-- Python `max(a, b)` on numbers. -/
def pyMax (a b : ℚ) : ℚ := if b ≤ a then a else b

/-- Word counter for Python `len(s.split())`: counts maximal non-whitespace
runs.  The boolean records whether the previous character was non-whitespace. -/
def countWordsGo : Bool → List Char → ℕ
  | _, [] => 0
  | prevInWord, c :: rest =>
    (if !pyIsSpace c && !prevInWord then 1 else 0) + countWordsGo (!pyIsSpace c) rest

/-- Python `len(s.split())`. -/
def countWords (s : String) : ℕ := countWordsGo false s.data

/-- Number of matches of the regex `\b\d+` in a character list: positions where
a digit follows a non-word character (or the start of the string), counting one
match per maximal digit run so started. -/
def countDigitRunsGo : Bool → List Char → ℕ
  | _, [] => 0
  | prevWord, c :: rest =>
    (if c.isDigit && !prevWord then 1 else 0) + countDigitRunsGo (isWordChar c) rest

/-- Number of `re.findall(r'\b\d+', s)` matches. -/
def countDigitRuns (s : String) : ℕ := countDigitRunsGo false s.data

/-! ## `pathway_service.py`: claim-type classification (`_classify_claim_type`) -/

/-- Keyword list for the `measurement` claim type (source line 96). -/
def measurement_words : List String :=
  ["taller", "shorter", "bigger", "smaller", "meters", "feet", "height"]

/-- Keyword list for the `temporal` claim type (source line 98). -/
def temporal_words : List String :=
  ["when", "year", "date", "happened", "occurred"]

/-- Keyword list for the `geographical` claim type (source line 100). -/
def geographical_words : List String :=
  ["where", "located", "city", "country", "place"]

/-- Keyword list for the `biographical` claim type (source line 102). -/
def biographical_words : List String :=
  ["who", "person", "people", "president", "ceo"]

/-- Keyword list for the `definitional` claim type (source line 104). -/
def definitional_words : List String :=
  ["what", "is", "definition", "means"]

/-- Keyword list for the `comparative` claim type (source line 106). -/
def comparative_words : List String :=
  ["more", "less", "than", "compared", "versus"]

/-- Python `any(word in claim_lower for word in ws)`. -/
def containsAnyWord (claimLower : String) (ws : List String) : Bool :=
  ws.any (fun w => strIn w claimLower)

/-- `PathwayProcessor._classify_claim_type`: first matching keyword set wins,
in the source's `if`/`elif` order; otherwise `general`. -/
def classify_claim_type (claim : String) : String :=
  let claim_lower := pyLower claim
  if containsAnyWord claim_lower measurement_words then "measurement"
  else if containsAnyWord claim_lower temporal_words then "temporal"
  else if containsAnyWord claim_lower geographical_words then "geographical"
  else if containsAnyWord claim_lower biographical_words then "biographical"
  else if containsAnyWord claim_lower definitional_words then "definitional"
  else if containsAnyWord claim_lower comparative_words then "comparative"
  else "general"

/-! ## `pathway_service.py`: key terms, structure, complexity -/

/-- Stop-word set of `_extract_key_terms` (source lines 114-118). -/
def stop_words : List String :=
  ["the", "is", "are", "was", "were", "a", "an", "and", "or", "but",
   "in", "on", "at", "to", "for", "of", "with", "by", "that", "this",
   "than", "more", "less", "taller", "shorter"]

/-- Maximal word-character runs of a character list (each run returned in
order; `acc` holds the current run reversed). -/
def wordRunsGo : List Char → List Char → List (List Char)
  | acc, [] => if acc.isEmpty then [] else [acc.reverse]
  | acc, c :: rest =>
    if isWordChar c then wordRunsGo (c :: acc) rest
    else (if acc.isEmpty then [] else [acc.reverse]) ++ wordRunsGo [] rest

/-- Matches of `re.findall(r'\b[a-zA-Z]+\b', s)`: the maximal word-character
runs consisting purely of letters.  A letter run adjacent to a digit or
underscore is not bounded by `\b` on that side and does not match. -/
def letterRuns (l : List Char) : List (List Char) :=
  (wordRunsGo [] l).filter (fun run => run.all Char.isAlpha)

/-- Deduplication keeping the first occurrence.  Python's `list(set(xs))`
iterates a hash set whose order is unspecified (string hashing is salted);
the claims checked here never depend on that order, so first-occurrence
order is used as the model. -/
def dedupFirst (xs : List String) : List String := xs.dedup

/-- `PathwayProcessor._extract_key_terms`. -/
def extract_key_terms (claim : String) : List String :=
  let words := (letterRuns (pyLower claim).data).map (fun l => (⟨l⟩ : String))
  dedupFirst (words.filter (fun w => !stop_words.contains w && w.length > 2))

/-- Subordinate-conjunction word list of `_calculate_complexity` (line 148). -/
def subordinate_words : List String :=
  ["that", "which", "who", "where", "when", "because", "since", "although"]

/-- `PathwayProcessor._calculate_complexity`. -/
def calculate_complexity (claim : String) : ℚ :=
  let word_count : ℕ := countWords claim
  let lengthFactor : ℚ := pyMin ((word_count : ℚ) / 10) 1
  let subCount : ℕ := subordinate_words.countP (fun w => strIn w (pyLower claim))
  let digitCount : ℕ := countDigitRuns claim
  pyMin (lengthFactor + (subCount : ℚ) * 0.2 + (digitCount : ℚ) * 0.3) 5

/-- The complexity formula as a function of the three counts it depends on:
word count, number of subordinate-conjunction hits, number of digit runs. -/
def complexityOf (wc subHits digitRuns : ℕ) : ℚ :=
  pyMin (pyMin ((wc : ℚ) / 10) 1 + (subHits : ℚ) * 0.2 + (digitRuns : ℚ) * 0.3) 5

/-! ## `llama_service.py`: categories, verdict enum, confidence adjustment -/

/-- `ClaimCategory` enum (source lines 29-50). -/
inductive ClaimCategory where
  | scientific | mathematical | historical | geographical | biographical
  | statistical | technological | medical | legal | economic
  | political | cultural | linguistic | definitional | comparative
  | temporal | causal | predictive | opinion_based | general
deriving DecidableEq

/-- The `.value` string of each `ClaimCategory` member. -/
def ClaimCategory.value : ClaimCategory → String
  | .scientific => "scientific"
  | .mathematical => "mathematical"
  | .historical => "historical"
  | .geographical => "geographical"
  | .biographical => "biographical"
  | .statistical => "statistical"
  | .technological => "technological"
  | .medical => "medical"
  | .legal => "legal"
  | .economic => "economic"
  | .political => "political"
  | .cultural => "cultural"
  | .linguistic => "linguistic"
  | .definitional => "definitional"
  | .comparative => "comparative"
  | .temporal => "temporal"
  | .causal => "causal"
  | .predictive => "predictive"
  | .opinion_based => "opinion_based"
  | .general => "general"

/-- `UniversalLLaMAService._adjust_confidence_by_category`, numeric core.
The `config` parameter of the source is read into a local `threshold` that is
never used afterwards, so it is omitted here. -/
def adjust_confidence_by_category (confidence : ℚ) (category : ClaimCategory) : ℚ :=
  match category with
  | .mathematical => if confidence > 90 then pyMin confidence 99.5 else confidence * 0.8
  | .medical => pyMin (confidence * 0.9) 85.0
  | .opinion_based => pyMin confidence 60.0
  | .scientific => if confidence < 70 then confidence * 0.85 else confidence
  | _ => confidence

/-- The adjustment rules as the specification states them, one clause per
category, for comparison with the implementation. -/
def specAdjust (x : ℚ) (category : ClaimCategory) : ℚ :=
  match category with
  | .mathematical => if x > 90 then pyMin x 99.5 else x * 0.8
  | .medical => pyMin (x * 0.9) 85.0
  | .opinion_based => pyMin x 60.0
  | .scientific => if x < 70 then x * 0.85 else x
  | _ => x

/-! ## `memory_store.py` -/

/-- Dynamic Python values as they flow through result dictionaries.
Numbers (`int` and `float`) are collapsed into `ℚ`; no checked claim depends
on the int/float distinction. -/
inductive PyVal where
  | pyNone
  | pyBool (b : Bool)
  | pyNum (q : ℚ)
  | pyStr (s : String)
  | pyList (xs : List PyVal)
  | pyDict (d : List (String × PyVal))

/-- A stored fact-check result (`MemoryStore.add_result` dictionary).
The `timestamp` field (wall-clock time) is not modelled. -/
structure FactRecord where
  id : ℕ
  claim : String
  verdict : PyVal
  confidence_score : PyVal
  explanation : String
  processing_time_ms : Option ℤ
  sources : Option String
  session_id : Option String

/-- The in-memory store: the append-only list plus the id counter. -/
structure MemoryStore where
  store : List FactRecord
  counter : ℕ

/-- A fresh `MemoryStore()` (counter starts at 1). -/
def MemoryStore.init : MemoryStore := ⟨[], 1⟩

/-- `MemoryStore.add_result`: build the record with the next id, append it,
bump the counter, and return the record. -/
def MemoryStore.add_result (ms : MemoryStore) (claim : String) (verdict : PyVal)
    (confidence_score : PyVal) (explanation : String)
    (processing_time_ms : Option ℤ) (sources : Option String)
    (session_id : Option String) : MemoryStore × FactRecord :=
  let result : FactRecord :=
    ⟨ms.counter, claim, verdict, confidence_score, explanation,
      processing_time_ms, sources, session_id⟩
  (⟨ms.store ++ [result], ms.counter + 1⟩, result)

/-- Python truthiness of an optional integer argument (`None` and `0` are
falsy). -/
def truthyNat : Option ℕ → Bool
  | none => false
  | some n => n != 0

/-- `sorted(self._store, key=lambda x: x["id"], reverse=True)`: stable sort by
descending id. -/
def sortByIdDesc (l : List FactRecord) : List FactRecord :=
  l.insertionSort (fun a b => b.id ≤ a.id)

/-- `MemoryStore.get_all`: sort descending by id, then apply `offset` and
`limit` only when they are truthy.  Arguments are modelled as natural numbers;
the checked claims only exercise non-negative values. -/
def MemoryStore.get_all (ms : MemoryStore) (limit : Option ℕ) (offset : Option ℕ) :
    List FactRecord :=
  let results := sortByIdDesc ms.store
  let results := if truthyNat offset then results.drop (offset.getD 0) else results
  let results := if truthyNat limit then results.take (limit.getD 0) else results
  results

/-- Explanation truncation of the `/history` endpoint:
`explanation[:200] + "..."` when longer than 200 characters. -/
def truncateExplanation (s : String) : String :=
  if s.data.length > 200 then (⟨s.data.take 200⟩ : String) ++ ("...") else s

/-- One `/history` response entry (`HistoryResponse`); the timestamp is not
modelled. -/
structure HistoryEntry where
  id : ℕ
  claim : String
  verdict : PyVal
  confidence_score : PyVal
  explanation : String

/-- The `/history` endpoint `get_history` of `main.py`: paginate via
`MemoryStore.get_all`, truncating explanations. -/
def get_history (ms : MemoryStore) (limit offset : Option ℕ) : List HistoryEntry :=
  (ms.get_all limit offset).map
    (fun r => ⟨r.id, r.claim, r.verdict, r.confidence_score,
      truncateExplanation r.explanation⟩)

/-! ## `pathway_service.py`: normalization and entity extraction -/

/-- Collapse whitespace runs to a single space (`re.sub(r'\s+', ' ', t)`).
The boolean records whether the previous character was whitespace. -/
def collapseWsGo : Bool → List Char → List Char
  | _, [] => []
  | prevWs, c :: rest =>
    if pyIsSpace c then
      if prevWs then collapseWsGo true rest else ' ' :: collapseWsGo true rest
    else c :: collapseWsGo false rest

/-- Smart-quote characters replaced by `"` in `_normalize_text`
(the source's character class `["""''`]`). -/
def isSmartQuote (c : Char) : Bool :=
  c == '"' || c == '“' || c == '”' || c == '‘' || c == '’' ||
    c == '\x60'

/-- En/em dash characters replaced by `-` in `_normalize_text`. -/
def isLongDash (c : Char) : Bool := c == '–' || c == '—'

/-- `PathwayProcessor._normalize_text`: strip, collapse whitespace runs,
standardize quotes and dashes. -/
def normalize_text (t : String) : String :=
  let collapsed := collapseWsGo false (pyStrip t).data
  let quoted := collapsed.map (fun c => if isSmartQuote c then '"' else c)
  ⟨quoted.map (fun c => if isLongDash c then '-' else c)⟩

/-- Word boundary after a match: end of input or a non-word character. -/
def boundaryAfter : List Char → Bool
  | [] => true
  | c :: _ => !isWordChar c

/-- Matches of `re.findall(r'\b\d+(?:\.\d+)?\b', s)` (the `numbers` entity
pattern).  Fuel-indexed scan; the fuel is initialized to the input length plus
one, which every call site strictly decreases. -/
def numbersScanGo : ℕ → Bool → List Char → List (List Char)
  | 0, _, _ => []
  | _ + 1, _, [] => []
  | fuel + 1, prevWord, c :: rest =>
    if c.isDigit && !prevWord then
      let d1 := c :: rest.takeWhile Char.isDigit
      let r1 := rest.dropWhile Char.isDigit
      match r1 with
      | '.' :: r2 =>
        let d2 := r2.takeWhile Char.isDigit
        let r3 := r2.dropWhile Char.isDigit
        if d2.isEmpty then
          -- no fraction digits: the `.` itself is the `\b` boundary after `d1`
          d1 :: numbersScanGo fuel true r1
        else if boundaryAfter r3 then
          (d1 ++ '.' :: d2) :: numbersScanGo fuel true r3
        else
          -- the optional fraction group backtracks; `.` is the boundary
          d1 :: numbersScanGo fuel true r1
      | _ =>
        if boundaryAfter r1 then d1 :: numbersScanGo fuel true r1
        else numbersScanGo fuel (isWordChar c) rest
    else numbersScanGo fuel (isWordChar c) rest

/-- The `numbers` entity pattern over a string. -/
def numbersScan (s : String) : List String :=
  (numbersScanGo (s.data.length + 1) false s.data).map (fun l => (⟨l⟩ : String))

/-- Date separator (dash or slash). -/
def isDateSep (c : Char) : Bool := c == '-' || c == '/'

/-- Greedy `\d{1,2}` followed by a required check on the remainder: try two
digits, then one.  Returns the matched digits and the remainder. -/
def tryTwoThenOne (l : List Char) (after : List Char → Bool) :
    Option (List Char × List Char) :=
  match l with
  | a :: b :: rest =>
    if a.isDigit && b.isDigit && after rest then some ([a, b], rest)
    else if a.isDigit && after (b :: rest) then some ([a], b :: rest)
    else none
  | [a] => if a.isDigit && after [] then some ([a], []) else none
  | [] => none

/-- Head-is-separator test used between date components. -/
def sepHead : List Char → Bool
  | c :: _ => isDateSep c
  | [] => false

/-- First date alternative: four digits, separator, one or two digits,
separator, one or two digits, word boundary. -/
def tryDateAlt1 (l : List Char) : Option (List Char × List Char) :=
  match l with
  | a :: b :: c :: d :: rest =>
    if a.isDigit && b.isDigit && c.isDigit && d.isDigit then
      match rest with
      | s1 :: r1 =>
        if isDateSep s1 then
          match tryTwoThenOne r1 sepHead with
          | some (m, r2) =>
            match r2 with
            | s2 :: r3 =>
              match tryTwoThenOne r3 boundaryAfter with
              | some (dd, r4) => some ([a, b, c, d] ++ s1 :: (m ++ s2 :: dd), r4)
              | none => none
            | [] => none
          | none => none
        else none
      | [] => none
    else none
  | _ => none

/-- Second date alternative: one or two digits, separator, one or two digits,
separator, four digits, word boundary. -/
def tryDateAlt2 (l : List Char) : Option (List Char × List Char) :=
  match tryTwoThenOne l sepHead with
  | some (m1, r1) =>
    match r1 with
    | s1 :: r2 =>
      match tryTwoThenOne r2 sepHead with
      | some (m2, r3) =>
        match r3 with
        | s2 :: a :: b :: c :: d :: r4 =>
          if a.isDigit && b.isDigit && c.isDigit && d.isDigit && boundaryAfter r4 then
            some (m1 ++ s1 :: (m2 ++ s2 :: [a, b, c, d]), r4)
          else none
        | _ => none
      | none => none
    | [] => none
  | none => none

/-- Matches of the `dates` entity pattern (two date alternatives, first one
preferred, both anchored at a word boundary). -/
def datesScanGo : ℕ → Bool → List Char → List (List Char)
  | 0, _, _ => []
  | _ + 1, _, [] => []
  | fuel + 1, prevWord, c :: rest =>
    if !prevWord then
      match tryDateAlt1 (c :: rest) with
      | some (m, r) => m :: datesScanGo fuel true r
      | none =>
        match tryDateAlt2 (c :: rest) with
        | some (m, r) => m :: datesScanGo fuel true r
        | none => datesScanGo fuel (isWordChar c) rest
    else datesScanGo fuel (isWordChar c) rest

/-- The `dates` entity pattern over a string. -/
def datesScan (s : String) : List String :=
  (datesScanGo (s.data.length + 1) false s.data).map (fun l => (⟨l⟩ : String))

/-- Case-insensitive literal prefix test, mirroring `re.IGNORECASE` matching
of an ASCII keyword. -/
def ciPrefix (pat l : List Char) : Bool :=
  pat.isPrefixOf (l.map Char.toLower) && pat.length ≤ l.length

/-- Unit alternatives of the `measurements` pattern, in the source's
alternation order; the boolean marks an optional plural `s?` (tried greedily
with the `s` first). -/
def unitAlternatives : List (String × Bool) :=
  [("meter", true), ("feet", false), ("km", false), ("mile", true),
   ("kg", false), ("pound", true), ("celsius", false), ("fahrenheit", false)]

/-- Try one unit alternative at the current position, requiring a word
boundary after it; returns the matched original characters and remainder. -/
def tryOneUnit (u : List Char) (l : List Char) : Option (List Char × List Char) :=
  if ciPrefix u l && boundaryAfter (l.drop u.length) then
    some (l.take u.length, l.drop u.length)
  else none

/-- Try the unit alternation `(?:meters?|feet|km|miles?|kg|pounds?|celsius|fahrenheit)\b`. -/
def tryUnits : List (String × Bool) → List Char → Option (List Char × List Char)
  | [], _ => none
  | (u, plural) :: alts, l =>
    match (if plural then tryOneUnit (u.data ++ ['s']) l else none) with
    | some r => some r
    | none =>
      match tryOneUnit u.data l with
      | some r => some r
      | none => tryUnits alts l

/-- Matches of the `measurements` entity pattern
`\b\d+(?:\.\d+)?\s*(?:meters?|...)\b`. -/
def measurementsScanGo : ℕ → Bool → List Char → List (List Char)
  | 0, _, _ => []
  | _ + 1, _, [] => []
  | fuel + 1, prevWord, c :: rest =>
    if c.isDigit && !prevWord then
      let d1 := c :: rest.takeWhile Char.isDigit
      let r1 := rest.dropWhile Char.isDigit
      let (frac, r2) :=
        match r1 with
        | '.' :: rf =>
          let fd := rf.takeWhile Char.isDigit
          if fd.isEmpty then (([] : List Char), r1) else ('.' :: fd, rf.dropWhile Char.isDigit)
        | _ => ([], r1)
      let ws := r2.takeWhile pyIsSpace
      let r3 := r2.dropWhile pyIsSpace
      match tryUnits unitAlternatives r3 with
      | some (u, r4) => (d1 ++ frac ++ ws ++ u) :: measurementsScanGo fuel true r4
      | none => measurementsScanGo fuel (isWordChar c) rest
    else measurementsScanGo fuel (isWordChar c) rest

/-- The `measurements` entity pattern over a string. -/
def measurementsScan (s : String) : List String :=
  (measurementsScanGo (s.data.length + 1) false s.data).map (fun l => (⟨l⟩ : String))

/-- A qualifying word of the `places` pattern at the current position: a
maximal word-character run that is all letters and at least two characters
long (`[A-Z][a-z]+` under `re.IGNORECASE`, bounded by `\b`).  Returns the word
and the remainder. -/
def tryPlaceWord (l : List Char) : Option (List Char × List Char) :=
  let run := l.takeWhile Char.isAlpha
  let rest := l.dropWhile Char.isAlpha
  if run.length ≥ 2 && boundaryAfter rest then some (run, rest) else none

/-- Greedy continuation `(?:\s+[A-Z][a-z]+)*` of the `places` pattern. -/
def placeChainGo : ℕ → List Char → List Char → List Char × List Char
  | 0, acc, l => (acc, l)
  | fuel + 1, acc, l =>
    let ws := l.takeWhile pyIsSpace
    let r1 := l.dropWhile pyIsSpace
    if ws.isEmpty then (acc, l)
    else
      match tryPlaceWord r1 with
      | some (w, r2) => placeChainGo fuel (acc ++ ws ++ w) r2
      | none => (acc, l)

/-- Matches of the `places` entity pattern
`\b[A-Z][a-z]+(?:\s+[A-Z][a-z]+)*\b` under `re.IGNORECASE`: chains of
pure-letter words (length ≥ 2) separated by whitespace. -/
def placesScanGo : ℕ → Bool → List Char → List (List Char)
  | 0, _, _ => []
  | _ + 1, _, [] => []
  | fuel + 1, prevWord, c :: rest =>
    if c.isAlpha && !prevWord then
      match tryPlaceWord (c :: rest) with
      | some (w, r1) =>
        let (m, r2) := placeChainGo (r1.length + 1) w r1
        m :: placesScanGo fuel true r2
      | none => placesScanGo fuel (isWordChar c) rest
    else placesScanGo fuel (isWordChar c) rest

/-- The `places` entity pattern over a string. -/
def placesScan (s : String) : List String :=
  (placesScanGo (s.data.length + 1) false s.data).map (fun l => (⟨l⟩ : String))

/-- The four entity lists extracted by `_extract_entities` (each deduplicated
by `list(set(...))`, modelled as first-occurrence deduplication). -/
structure Entities where
  numbers : List String
  dates : List String
  places : List String
  measurements : List String

/-- `PathwayProcessor._extract_entities`. -/
def extract_entities (claim : String) : Entities :=
  ⟨dedupFirst (numbersScan claim), dedupFirst (datesScan claim),
    dedupFirst (placesScan claim), dedupFirst (measurementsScan claim)⟩

/-! ## `pathway_service.py`: claim structure, search queries, descriptor -/

/-- Comparative keyword list of `_analyze_claim_structure` (line 130). -/
def comparative_structure_words : List String :=
  ["than", "compared", "versus", "more", "less"]

/-- Negation keyword list of `_analyze_claim_structure` (line 131); the
contracted form is written with an escaped apostrophe. -/
def negation_words : List String :=
  ["not", "never", "no", "n\x27t", "false"]

/-- The `structure` sub-dictionary built by `_analyze_claim_structure`. -/
structure ClaimStructure where
  is_question : Bool
  is_comparative : Bool
  has_negation : Bool
  has_quantifier : Bool
  sentence_length : ℕ
  complexity_score : ℚ

/-- `PathwayProcessor._analyze_claim_structure`. -/
def analyze_claim_structure (claim : String) : ClaimStructure :=
  ⟨(pyStrip claim).data.getLast? == some '?',
    containsAnyWord (pyLower claim) comparative_structure_words,
    containsAnyWord (pyLower claim) negation_words,
    countDigitRuns claim != 0,
    countWords claim,
    calculate_complexity claim⟩

/-- Python `' '.join(xs)`. -/
def pyJoin (sep : String) (xs : List String) : String := String.intercalate sep xs

/-- `PathwayProcessor._generate_search_queries`. -/
def generate_search_queries (claim : String) : List String :=
  let key_terms := extract_key_terms claim
  let entities := extract_entities claim
  let queries := [claim]
  let queries := queries ++ (entities.places.take 2).map (fun p => p ++ (" facts information"))
  let queries := queries ++
    (entities.numbers.take 2).map (fun n => n ++ (" ") ++ pyJoin (" ") (key_terms.take 3))
  let queries :=
    if key_terms.length ≥ 3 then queries ++ [pyJoin (" ") (key_terms.take 5)] else queries
  queries.take 5

/-- The processed-claim dictionary built by `preprocess_claim` /
`_basic_preprocessing`.  The `timestamp` key (wall-clock time) is not
modelled; `preprocessing_method` is `some "basic"` exactly when the
fallback path added that key. -/
structure ProcessedClaim where
  original_claim : String
  normalized_claim : String
  entities : Entities
  claim_type : String
  key_terms : List String
  structure_info : ClaimStructure
  search_queries : List String
  preprocessing_method : Option String

/-- `PathwayProcessor._basic_preprocessing`: the fallback used when the
Pathway table construction raises. -/
def basic_preprocessing (claim : String) : ProcessedClaim :=
  ⟨pyStrip claim, normalize_text claim, extract_entities claim,
    classify_claim_type claim, extract_key_terms claim,
    analyze_claim_structure claim, generate_search_queries claim, some ("basic")⟩

/-- `PathwayProcessor.preprocess_claim`.  The `pathway_ok` flag models whether
the `pw.Table.empty` call inside the `try` block succeeds; on failure the
`except` handler returns `_basic_preprocessing(claim)`. -/
def preprocess_claim (pathway_ok : Bool) (claim : String) : ProcessedClaim :=
  if pathway_ok then
    ⟨pyStrip claim, normalize_text claim, extract_entities claim,
      classify_claim_type claim, extract_key_terms claim,
      analyze_claim_structure claim, generate_search_queries claim, none⟩
  else basic_preprocessing claim

/-- The verification context built by `create_verification_context` (called
with `external_data=None` by `check_fact`). -/
structure VerificationContext where
  claim_analysis : ProcessedClaim
  verification_strategy : String
  external_evidence : List PyVal
  confidence_factors : List String
  potential_issues : List String

/-- `PathwayProcessor._determine_verification_strategy` (the `strategies`
dictionary lookup with the `general` fallback). -/
def determine_verification_strategy (pc : ProcessedClaim) : String :=
  if pc.claim_type == "measurement" then "Compare against authoritative measurement databases"
  else if pc.claim_type == "temporal" then "Verify dates against historical records"
  else if pc.claim_type == "geographical" then "Cross-reference with geographical databases"
  else if pc.claim_type == "biographical" then "Verify against biographical sources"
  else if pc.claim_type == "definitional" then "Check against authoritative definitions"
  else if pc.claim_type == "comparative" then "Gather data for both subjects and compare"
  else "Multi-source verification with credible sources"

/-- `PathwayProcessor._identify_confidence_factors`. -/
def identify_confidence_factors (pc : ProcessedClaim) : List String :=
  (if pc.structure_info.has_quantifier then ["Contains specific numbers - verifiable"] else []) ++
  (if pc.structure_info.is_comparative then
    ["Comparative claim - requires multiple data points"] else []) ++
  (if pc.structure_info.complexity_score > 3 then
    ["High complexity - may be difficult to verify"] else []) ++
  (if !pc.entities.places.isEmpty then
    ["Contains geographical references - verifiable"] else []) ++
  (if !pc.entities.dates.isEmpty then ["Contains dates - historically verifiable"] else [])

/-- `PathwayProcessor._identify_potential_issues`. -/
def identify_potential_issues (pc : ProcessedClaim) : List String :=
  (if pc.structure_info.is_question then ["Claim is phrased as a question"] else []) ++
  (if pc.structure_info.has_negation then
    ["Contains negation - verify the positive statement"] else []) ++
  (if pc.key_terms.length < 2 then ["Very few key terms - may be too vague"] else []) ++
  (if pc.structure_info.complexity_score > 4 then
    ["High complexity - break down into sub-claims"] else [])

/-- `PathwayProcessor.create_verification_context` with `external_data=None`. -/
def create_verification_context (pc : ProcessedClaim) : VerificationContext :=
  ⟨pc, determine_verification_strategy pc, [], identify_confidence_factors pc,
    identify_potential_issues pc⟩

/-! ## A model of `json.loads`

A one-character-per-step pushdown automaton over the JSON grammar
(RFC 8259, as accepted by Python's `json.loads` with default `strict=True`:
raw control characters below `0x20` are rejected inside strings, and object
keys may repeat with the last occurrence winning).  The nonstandard `NaN` /
`Infinity` extensions of Python are not modelled; no checked claim involves
them.  Numbers are converted to `ℚ` on the fly, collapsing Python's
`int`/`float` distinction. -/

/-- Python dictionary update `d[k] = v`: replaces in place or appends. -/
def pyDictSet (d : List (String × PyVal)) (k : String) (v : PyVal) :
    List (String × PyVal) :=
  if d.any (fun p => p.1 == k) then d.map (fun p => if p.1 == k then (k, v) else p)
  else d ++ [(k, v)]

/-- Build a Python dictionary from a sequence of key/value pairs (later
duplicates overwrite, keeping the first position), as the JSON decoder does. -/
def pyDictOfPairs (pairs : List (String × PyVal)) : List (String × PyVal) :=
  pairs.foldl (fun d p => pyDictSet d p.1 p.2) []

/-- Python `d.get(k)`. -/
def pyDictGet (d : List (String × PyVal)) (k : String) : Option PyVal :=
  (d.find? (fun p => p.1 == k)).map (fun p => p.2)

/-- JSON whitespace. -/
def isJsonWs (c : Char) : Bool := c == ' ' || c == '\t' || c == '\n' || c == '\r'

/-- Value of a decimal digit list. -/
def digitsToNat (l : List Char) : ℕ := l.foldl (fun n c => 10 * n + (c.toNat - 48)) 0

/-- Powers of ten in `ℚ` by plain recursion (kernel-reducible). -/
def qTenPow : ℕ → ℚ
  | 0 => 1
  | n + 1 => 10 * qTenPow n

/-- The signed exponent part of a JSON number token (0 when absent). -/
def numExpPart : List Char → ℤ
  | 'e' :: r =>
    (match r with
     | '+' :: d => (digitsToNat d : ℤ)
     | '-' :: d => -(digitsToNat d : ℤ)
     | d => (digitsToNat d : ℤ))
  | 'E' :: r =>
    (match r with
     | '+' :: d => (digitsToNat d : ℤ)
     | '-' :: d => -(digitsToNat d : ℤ)
     | d => (digitsToNat d : ℤ))
  | _ => 0

/-- Numeric value of a well-formed JSON number token. -/
def numValue (tok : List Char) : ℚ :=
  let (sgn, t1) : ℚ × List Char :=
    match tok with
    | '-' :: r => (-1, r)
    | _ => (1, tok)
  let ip := t1.takeWhile Char.isDigit
  let r1 := t1.dropWhile Char.isDigit
  let (fp, r2) : List Char × List Char :=
    match r1 with
    | '.' :: rf => (rf.takeWhile Char.isDigit, rf.dropWhile Char.isDigit)
    | _ => ([], r1)
  let e := numExpPart r2
  let base : ℚ := sgn * (digitsToNat (ip ++ fp) : ℚ) / qTenPow fp.length
  if 0 ≤ e then base * qTenPow e.toNat else base / qTenPow (-e).toNat

/-- Stack frame of the JSON automaton: an object or array awaiting a value. -/
inductive JFrame where
  | inObj (done : List (String × PyVal)) (key : String)
  | inArr (done : List PyVal)

/-- Pending context of a partially parsed string literal: it is either a value
or an object key. -/
inductive JStrK where
  | asValue (fs : List JFrame)
  | asKey (done : List (String × PyVal)) (fs : List JFrame)

/-- Phase of the JSON number sub-automaton. -/
inductive NumPhase where
  | nMinus | nZero | nInt | nDot | nFrac | nExp | nExpSign | nExpD
deriving DecidableEq

/-- Number phases at which a JSON number token may end. -/
def NumPhase.accepting : NumPhase → Bool
  | .nZero | .nInt | .nFrac | .nExpD => true
  | _ => false

/-- State of the JSON automaton.  String accumulators are kept reversed. -/
inductive PState where
  | sVal (fs : List JFrame)
  | sStr (acc : List Char) (k : JStrK)
  | sEsc (acc : List Char) (k : JStrK)
  | sHex (cnt : ℕ) (code : ℕ) (acc : List Char) (k : JStrK)
  | sLit (rest : List Char) (v : PyVal) (fs : List JFrame)
  | sNum (ph : NumPhase) (acc : List Char) (fs : List JFrame)
  | sObjFirst (fs : List JFrame)
  | sObjKey (done : List (String × PyVal)) (fs : List JFrame)
  | sObjColon (done : List (String × PyVal)) (key : String) (fs : List JFrame)
  | sObjComma (done : List (String × PyVal)) (fs : List JFrame)
  | sArrFirst (fs : List JFrame)
  | sArrComma (done : List PyVal) (fs : List JFrame)
  | sDone (v : PyVal)

/-- Deliver a completed value to the enclosing frame (or finish). -/
def pushValue (v : PyVal) : List JFrame → PState
  | [] => .sDone v
  | .inObj done key :: fs => .sObjComma (done ++ [(key, v)]) fs
  | .inArr done :: fs => .sArrComma (done ++ [v]) fs

/-- Transition for the first character of a value. -/
def valStart (c : Char) (fs : List JFrame) : Option PState :=
  if isJsonWs c then some (.sVal fs)
  else if c == '"' then some (.sStr [] (.asValue fs))
  else if c == '\x7b' then some (.sObjFirst fs)
  else if c == '[' then some (.sArrFirst fs)
  else if c == 't' then some (.sLit ("rue").data (.pyBool true) fs)
  else if c == 'f' then some (.sLit ("alse").data (.pyBool false) fs)
  else if c == 'n' then some (.sLit ("ull").data .pyNone fs)
  else if c == '-' then some (.sNum .nMinus [c] fs)
  else if c == '0' then some (.sNum .nZero [c] fs)
  else if c.isDigit then some (.sNum .nInt [c] fs)
  else none

/-- Table of the single-character JSON string escapes accepted by json.loads. -/
def escTable : List (Char × Char) :=
  [('"', '"'), ('\\', '\\'), ('/', '/'), ('b', '\x08'),
   ('f', '\x0c'), ('n', '\n'), ('r', '\r'), ('t', '\t')]

/-- Single-character JSON string escapes. -/
def escChar (c : Char) : Option Char :=
  escTable.lookup c

/-- Hexadecimal digit value. -/
def hexVal (c : Char) : Option ℕ :=
  if c.isDigit then some (c.toNat - 48)
  else
    let lc := c.toLower
    if 'a' ≤ lc && lc ≤ 'f' then some (lc.toNat - 87) else none

/-- Close a string literal: deliver it as a value or hold it as a key. -/
def strFinish (acc : List Char) : JStrK → PState
  | .asValue fs => pushValue (.pyStr ⟨acc.reverse⟩) fs
  | .asKey done fs => .sObjColon done ⟨acc.reverse⟩ fs

/-- Transitions of the three after-value states. -/
def postStep (st : PState) (c : Char) : Option PState :=
  match st with
  | .sObjComma done fs =>
    if isJsonWs c then some (.sObjComma done fs)
    else if c == ',' then some (.sObjKey done fs)
    else if c == '\x7d' then some (pushValue (.pyDict (pyDictOfPairs done)) fs)
    else none
  | .sArrComma done fs =>
    if isJsonWs c then some (.sArrComma done fs)
    else if c == ',' then some (.sVal (.inArr done :: fs))
    else if c == ']' then some (pushValue (.pyList done) fs)
    else none
  | .sDone v => if isJsonWs c then some (.sDone v) else none
  | _ => none

/-- Continuation of the number sub-automaton on one character. -/
def numStepChar (ph : NumPhase) (c : Char) : Option NumPhase :=
  match ph with
  | .nMinus => if c == '0' then some .nZero else if c.isDigit then some .nInt else none
  | .nZero =>
    if c == '.' then some .nDot
    else if c == 'e' || c == 'E' then some .nExp else none
  | .nInt =>
    if c.isDigit then some .nInt
    else if c == '.' then some .nDot
    else if c == 'e' || c == 'E' then some .nExp else none
  | .nDot => if c.isDigit then some .nFrac else none
  | .nFrac =>
    if c.isDigit then some .nFrac
    else if c == 'e' || c == 'E' then some .nExp else none
  | .nExp =>
    if c == '+' || c == '-' then some .nExpSign
    else if c.isDigit then some .nExpD else none
  | .nExpSign => if c.isDigit then some .nExpD else none
  | .nExpD => if c.isDigit then some .nExpD else none

/-- One step of the JSON automaton. -/
def step (st : PState) (c : Char) : Option PState :=
  match st with
  | .sVal fs => valStart c fs
  | .sStr acc k =>
    if c == '"' then some (strFinish acc k)
    else if c == '\\' then some (.sEsc acc k)
    else if 0x20 ≤ c.toNat then some (.sStr (c :: acc) k)
    else none
  | .sEsc acc k =>
    if c == 'u' then some (.sHex 0 0 acc k)
    else
      match escChar c with
      | some e => some (.sStr (e :: acc) k)
      | none => none
  | .sHex cnt code acc k =>
    match hexVal c with
    | some h =>
      if cnt == 3 then some (.sStr (Char.ofNat (16 * code + h) :: acc) k)
      else some (.sHex (cnt + 1) (16 * code + h) acc k)
    | none => none
  | .sLit rest v fs =>
    match rest with
    | [r] => if c == r then some (pushValue v fs) else none
    | r :: rs => if c == r then some (.sLit rs v fs) else none
    | [] => none
  | .sNum ph acc fs =>
    match numStepChar ph c with
    | some ph2 => some (.sNum ph2 (c :: acc) fs)
    | none =>
      if ph.accepting then postStep (pushValue (.pyNum (numValue acc.reverse)) fs) c
      else none
  | .sObjFirst fs =>
    if isJsonWs c then some (.sObjFirst fs)
    else if c == '"' then some (.sStr [] (.asKey [] fs))
    else if c == '\x7d' then some (pushValue (.pyDict []) fs)
    else none
  | .sObjKey done fs =>
    if isJsonWs c then some (.sObjKey done fs)
    else if c == '"' then some (.sStr [] (.asKey done fs))
    else none
  | .sObjColon done key fs =>
    if isJsonWs c then some (.sObjColon done key fs)
    else if c == ':' then some (.sVal (.inObj done key :: fs))
    else none
  | .sObjComma done fs => postStep (.sObjComma done fs) c
  | .sArrComma done fs => postStep (.sArrComma done fs) c
  | .sArrFirst fs =>
    if isJsonWs c then some (.sArrFirst fs)
    else if c == ']' then some (pushValue (.pyList []) fs)
    else valStart c (.inArr [] :: fs)
  | .sDone v => postStep (.sDone v) c

/-- Run the automaton over a character list. -/
def consume : PState → List Char → Option PState
  | st, [] => some st
  | st, c :: cs =>
    match step st c with
    | some st2 => consume st2 cs
    | none => none

/-- Acceptance at end of input. -/
def finishState : PState → Option PyVal
  | .sDone v => some v
  | .sNum ph acc fs =>
    if ph.accepting && fs.isEmpty then some (.pyNum (numValue acc.reverse)) else none
  | _ => none

/-- `json.loads`: `some` value on well-formed JSON text, `none` when the text
is rejected (a `json.JSONDecodeError` in Python). -/
def pyJsonLoads (s : String) : Option PyVal :=
  (consume (.sVal []) s.data).bind finishState

/-! ## `llama_service.py`: verdict enum, exceptions, helpers -/

/-- `VerdictType` enum (source lines 53-64). -/
inductive VerdictType where
  | TRUE | FALSE | PARTIALLY_TRUE | MISLEADING | UNVERIFIED
  | REQUIRES_CONTEXT | REQUIRES_INVESTIGATION | OPINION_NOT_FACT
  | OUTDATED | COMPLEX
deriving DecidableEq

/-- The `.value` string of each `VerdictType` member. -/
def VerdictType.value : VerdictType → String
  | .TRUE => "TRUE"
  | .FALSE => "FALSE"
  | .PARTIALLY_TRUE => "PARTIALLY_TRUE"
  | .MISLEADING => "MISLEADING"
  | .UNVERIFIED => "UNVERIFIED"
  | .REQUIRES_CONTEXT => "REQUIRES_CONTEXT"
  | .REQUIRES_INVESTIGATION => "REQUIRES_INVESTIGATION"
  | .OPINION_NOT_FACT => "OPINION_NOT_FACT"
  | .OUTDATED => "OUTDATED"
  | .COMPLEX => "COMPLEX"

/-- Python exceptions raised by the modelled code paths, with their message. -/
inductive PyErr where
  | attributeError (msg : String)
  | keyError (msg : String)
  | typeError (msg : String)
  | valueError (msg : String)
  | jsonDecodeError (msg : String)

/-- Python `str(e)` on a caught exception: the carried message. -/
def pyErrStr : PyErr → String
  | .attributeError m => m
  | .keyError m => m
  | .typeError m => m
  | .valueError m => m
  | .jsonDecodeError m => m

/-- First index at which `needle` starts inside the list, if any. -/
def firstMatchIdx (needle : List Char) : List Char → Option ℕ
  | [] => if needle.isPrefixOf [] then some 0 else none
  | c :: tl =>
    if needle.isPrefixOf (c :: tl) then some 0
    else (firstMatchIdx needle tl).map (fun i => i + 1)

/-- Python `hay.find(needle, start)` (`-1` when absent). -/
def pyFindFrom (hay needle : List Char) (start : ℕ) : ℤ :=
  match firstMatchIdx needle (hay.drop start) with
  | some i => ((start + i : ℕ) : ℤ)
  | none => -1

/-- Python `hay.find(c, start)` for a single character. -/
def pyFindChar (hay : List Char) (c : Char) (start : ℕ) : ℤ :=
  pyFindFrom hay [c] start

/-- Python `hay.rfind(c)` (`-1` when absent). -/
def pyRFindChar (hay : List Char) (c : Char) : ℤ :=
  match firstMatchIdx [c] hay.reverse with
  | some i => ((hay.length - 1 - i : ℕ) : ℤ)
  | none => -1

/-- Python float display for the integral float constants interpolated into
the demo f-strings (`75.0` renders as `"75.0"`).  Non-integral values never
reach a formatted string in the modelled paths. -/
def pyNumRepr (q : ℚ) : String :=
  if q.den = 1 then toString q.num ++ (".0")
  else toString q.num ++ ("/") ++ toString q.den

mutual

/-- Python `str()` of a dynamic value, as interpolated into f-strings.  Exact
for strings, booleans and `None`; numbers use `pyNumRepr`; containers use a
Python-like rendering (no checked claim inspects a formatted container). -/
def pyValStr : PyVal → String
  | .pyNone => "None"
  | .pyBool b => if b then "True" else "False"
  | .pyNum q => pyNumRepr q
  | .pyStr s => s
  | .pyList xs => "[" ++ pyJoin (", ") (pyValStrElems xs) ++ ("]")
  | .pyDict d => "\x7b" ++ pyJoin (", ") (pyValStrPairs d) ++ ("\x7d")

/-- Python `repr()` of a value inside a container (strings are quoted). -/
def pyValStrElem : PyVal → String
  | .pyStr s => ("\x27") ++ s ++ ("\x27")
  | v => pyValStr v

/-- Rendered elements of a list value. -/
def pyValStrElems : List PyVal → List String
  | [] => []
  | v :: vs => pyValStrElem v :: pyValStrElems vs

/-- Rendered entries of a dictionary value. -/
def pyValStrPairs : List (String × PyVal) → List String
  | [] => []
  | (k, v) :: ps => (("\x27") ++ k ++ ("\x27: ") ++ pyValStrElem v) :: pyValStrPairs ps

end

/-- Python `float()` applied to a string: optional sign, digits with optional
fraction and exponent (the `inf`/`nan` spellings are not modelled; no checked
claim reaches them). -/
def pyFloatOfString (s : String) : Except PyErr ℚ :=
  let t := pyStrip s
  let (sgn, t1) : ℚ × List Char :=
    match t.data with
    | '+' :: r => (1, r)
    | '-' :: r => (-1, r)
    | l => (1, l)
  let ip := t1.takeWhile Char.isDigit
  let r1 := t1.dropWhile Char.isDigit
  let (fp, r2) : List Char × List Char :=
    match r1 with
    | '.' :: rf => (rf.takeWhile Char.isDigit, rf.dropWhile Char.isDigit)
    | _ => ([], r1)
  if ip.isEmpty && fp.isEmpty then .error (.valueError ("could not convert string to float"))
  else
    let e := numExpPart r2
    let rem :=
      match r2 with
      | 'e' :: r => (match r with | '+' :: d => d | '-' :: d => d | d => d).dropWhile Char.isDigit
      | 'E' :: r => (match r with | '+' :: d => d | '-' :: d => d | d => d).dropWhile Char.isDigit
      | l => l
    if !rem.isEmpty then .error (.valueError ("could not convert string to float"))
    else
      let base : ℚ := sgn * (digitsToNat (ip ++ fp) : ℚ) / qTenPow fp.length
      .ok (if 0 ≤ e then base * qTenPow e.toNat else base / qTenPow (-e).toNat)

/-- Python `float()` applied to a dynamic value. -/
def pyFloat : PyVal → Except PyErr ℚ
  | .pyNum q => .ok q
  | .pyBool b => .ok (if b then 1 else 0)
  | .pyStr s => pyFloatOfString s
  | _ => .error (.typeError ("float() argument must be a string or a real number"))

/-! ## `llama_service.py`: mock fallback and the generation call -/

/-- Demo response literal of `_create_demo_response` (source line 551). -/
def flat_earth_demo_response : String :=
  "\x7b\n    \"verdict\": \"False\",\n    \"confidence_score\": 99.9,\n    \"explanation\": \"This claim is scientifically incorrect. The Earth is an oblate spheroid, not flat. This has been conclusively proven through multiple scientific methods including satellite imagery, physics, astronomy, and direct observation.\",\n    \"key_evidence\": [\n        \"Satellite imagery shows Earth\x27s spherical shape\",\n        \"Ships disappear hull-first over horizon due to Earth\x27s curvature\",\n        \"Different constellations visible from different latitudes\",\n        \"Earth\x27s shadow on moon during lunar eclipses is curved\"\n    ],\n    \"sources_needed\": [\"NASA satellite imagery\", \"International Space Station footage\", \"Physics textbooks\", \"Astronomical observations\"],\n    \"reasoning_steps\": [\n        \"Analyzed overwhelming scientific evidence for Earth\x27s spherical shape\",\n        \"Reviewed photographic evidence from space\",\n        \"Considered physics of gravity and planetary formation\",\n        \"Evaluated astronomical observations and measurements\"\n    ],\n    \"caveats\": [\"Based on centuries of scientific evidence\", \"Contradicts flat earth theory completely\"]\n\x7d"

/-- Demo response literal of `_create_demo_response` (source line 574). -/
def sun_earth_demo_response : String :=
  "\x7b\n    \"verdict\": \"False\",\n    \"confidence_score\": 99.9,\n    \"explanation\": \"This claim is scientifically incorrect and contradicts well-established astronomical facts. The Sun is vastly larger than Earth in all measurable dimensions. Size comparison: Sun diameter is 1,391,400 km vs Earth\x27s 12,742 km (Sun is 109.2 times wider). Volume: Sun is approximately 1.3 million times larger. Mass: Sun is 333,000 times more massive than Earth.\",\n    \"key_evidence\": [\n        \"Sun diameter: 1,391,400 km vs Earth diameter: 12,742 km\",\n        \"Sun is 109.2 times wider than Earth\",\n        \"Sun volume is 1.3 million times larger than Earth\",\n        \"Sun mass is 333,000 times greater than Earth mass\"\n    ],\n    \"sources_needed\": [\"NASA Planetary Fact Sheets\", \"International Astronomical Union data\", \"Peer-reviewed astronomical journals\"],\n    \"reasoning_steps\": [\n        \"Analyzed dimensional measurements of Sun and Earth\",\n        \"Compared diameter, volume, and mass ratios\",\n        \"Cross-referenced with multiple astronomical databases\",\n        \"Confirmed measurements are well-established scientific facts\"\n    ],\n    \"caveats\": [\"Measurements based on current astronomical standards\", \"Data consistently verified across space agencies\"]\n\x7d"

/-- Demo response literal of `_create_demo_response` (source line 597). -/
def earth_small_demo_response : String :=
  "\x7b\n    \"verdict\": \"False\",\n    \"confidence_score\": 99.9,\n    \"explanation\": \"This claim is astronomically incorrect. The Earth is significantly smaller than the Sun in all dimensions. The Sun\x27s diameter is 109.2 times larger than Earth\x27s diameter.\",\n    \"key_evidence\": [\n        \"Sun diameter: 1,391,400 km vs Earth diameter: 12,742 km\",\n        \"Sun volume is 1.3 million times larger than Earth\",\n        \"Sun mass is 333,000 times greater than Earth mass\",\n        \"Observable size difference confirms measurements\"\n    ],\n    \"sources_needed\": [\"NASA planetary data\", \"Astronomical measurements\", \"Physics databases\"],\n    \"reasoning_steps\": [\n        \"Compared official astronomical measurements\",\n        \"Verified diameter, volume, and mass ratios\",\n        \"Cross-referenced multiple space agency data\",\n        \"Confirmed through observational astronomy\"\n    ],\n    \"caveats\": [\"Based on precise astronomical measurements\", \"Universally accepted scientific data\"]\n\x7d"

/-- Demo response literal of `_create_demo_response` (source line 620). -/
def two_plus_two_demo_response : String :=
  "\x7b\n    \"verdict\": \"True\",\n    \"confidence_score\": 100.0,\n    \"explanation\": \"This mathematical statement is correct according to standard arithmetic in base-10 decimal system. The addition 2 + 2 = 4 is a fundamental mathematical truth verified through multiple mathematical systems.\",\n    \"key_evidence\": [\n        \"Operation: Addition of two integers (2 + 2)\",\n        \"Result: 4 in decimal system\",\n        \"Binary verification: 10₂ + 10₂ = 100₂ (equals 4₁₀)\",\n        \"Roman numerals: II + II = IV\"\n    ],\n    \"sources_needed\": [\"Mathematical axioms\", \"Arithmetic principles\", \"Universal mathematical standards\"],\n    \"reasoning_steps\": [\n        \"Applied Peano axioms for natural numbers\",\n        \"Used standard definition of addition\",\n        \"Verified through successor function application\",\n        \"Confirmed consistency across mathematical systems\"\n    ],\n    \"caveats\": [\"Fundamental mathematical truth\", \"Universal consensus across mathematical systems\"]\n\x7d"

/-- Demo response literal of `_create_demo_response` (source line 642). -/
def trump_demo_response : String :=
  "\x7b\n    \"verdict\": \"True\",\n    \"confidence_score\": 100.0,\n    \"explanation\": \"This claim is factually correct. Donald J. Trump served as the 45th President of the United States from January 20, 2017 to January 20, 2021, completing one full term.\",\n    \"key_evidence\": [\n        \"Election: Won 2016 presidential election with 304 electoral votes\",\n        \"Inauguration: January 20, 2017\",\n        \"Term end: January 20, 2021\",\n        \"Presidential number: 45th President of the United States\"\n    ],\n    \"sources_needed\": [\"U.S. National Archives\", \"Federal Election Commission\", \"Congressional Records\"],\n    \"reasoning_steps\": [\n        \"Verified through official government records\",\n        \"Cross-referenced congressional documentation\",\n        \"Confirmed electoral college certification\",\n        \"Historical archives validation\"\n    ],\n    \"caveats\": [\"Based on official government documentation\", \"Public record verification\"]\n\x7d"

/-- Demo response literal of `_create_demo_response` (source line 664). -/
def paris_demo_response : String :=
  "\x7b\n    \"verdict\": \"True\",\n    \"confidence_score\": 100.0,\n    \"explanation\": \"This claim is geographically accurate. Paris is indeed the capital and largest city of France, with coordinates 48°52′N 2°20′E, and has been the capital since 508 AD.\",\n    \"key_evidence\": [\n        \"Paris coordinates: 48°52′N 2°20′E\",\n        \"Administrative status: Capital city and largest city of France\",\n        \"Capital since 508 AD (Clovis I)\",\n        \"Population: ~2.16 million (city), ~12.4 million (metro area)\"\n    ],\n    \"sources_needed\": [\"INSEE (French National Statistics)\", \"IGN (French Geographic Institute)\", \"UN Geographic Database\"],\n    \"reasoning_steps\": [\n        \"Verified through official French government sources\",\n        \"Cross-referenced geographic coordinates\",\n        \"Confirmed administrative boundary status\",\n        \"Historical documentation review\"\n    ],\n    \"caveats\": [\"Based on official government recognition\", \"International geographic standards\"]\n\x7d"

/-- Climate demo response of `_create_demo_response` (f-string, source line 686): text before the claim. -/
def climate_demo_pre : String :=
  "\x7b\n    \"verdict\": \"Requires Context\",\n    \"confidence_score\": 85.0,\n    \"explanation\": \"Environmental and climate claims require specific context and timeframe analysis. The claim \x27"

/-- Climate demo response: text after the claim. -/
def climate_demo_post : String :=
  "\x27 touches on complex scientific topics that need detailed examination with multiple data sources and expert consensus.\",\n    \"key_evidence\": [\n        \"Climate data requires peer-reviewed analysis\",\n        \"Multiple data sources needed for verification\",\n        \"Scientific consensus evaluation required\",\n        \"Temporal and geographic context important\"\n    ],\n    \"sources_needed\": [\"IPCC reports\", \"NASA climate data\", \"NOAA records\", \"Peer-reviewed climate journals\"],\n    \"reasoning_steps\": [\n        \"Identified as environmental/climate claim requiring expert analysis\",\n        \"Assessed complexity factors and verification requirements\",\n        \"Determined need for scientific literature review\",\n        \"Recommended multi-source data analysis approach\"\n    ],\n    \"caveats\": [\"Requires expert scientific consensus\", \"Context-dependent accuracy\", \"Time-sensitive data needed\"]\n\x7d"

/-- `_get_mock_response` template: text before the extracted claim. -/
def mock_response_pre : String :=
  "\x7b\n    \"verdict\": \"Unverified\",\n    \"confidence_score\": 30,\n    \"explanation\": \"I apologize, but I cannot verify \x27"

/-- `_get_mock_response` template: text after the extracted claim. -/
def mock_response_post : String :=
  "\x27 at this time due to service unavailability. To properly fact-check this claim, I would need access to current databases and reliable sources. Please try again later or consult authoritative sources manually.\",\n    \"key_evidence\": [],\n    \"sources_needed\": [\"authoritative databases\", \"reliable news sources\", \"academic sources\"],\n    \"reasoning_steps\": [\"Service unavailable\", \"Unable to access verification resources\"],\n    \"caveats\": [\"LLaMA service temporarily unavailable\", \"Manual verification recommended\"]\n\x7d"

/-- Claim extraction of `_get_mock_response`: find `CLAIM TO ANALYZE: "`, then
the closing quote; fall back to `"the claim"`. -/
def extract_claim_from_prompt (prompt : String) : String :=
  let p := prompt.data
  let marker := ("CLAIM TO ANALYZE: \"").data
  let claim_start : ℤ := pyFindFrom p marker 0 + (marker.length : ℤ)
  let claim_end : ℤ := pyFindChar p '"' claim_start.toNat
  if claim_start < claim_end then
    ⟨(p.drop claim_start.toNat).take (claim_end - claim_start).toNat⟩
  else "the claim"

/-- `_get_mock_response` template applied to an already-extracted claim. -/
def mock_response_for (claim : String) : String :=
  mock_response_pre ++ claim ++ mock_response_post

/-- `UniversalLLaMAService._get_mock_response`. -/
def get_mock_response (prompt : String) : String :=
  mock_response_for (extract_claim_from_prompt prompt)

/-- Outcome of the external text-generation call (the single effectful step
of the pipeline): a 200 reply with body text, a non-200 status, a timeout, or
any other exception. -/
inductive ApiOutcome where
  | ok (text : String)
  | httpError (status : ℕ) (body : String)
  | timeout
  | exception (msg : String)

/-- `UniversalLLaMAService._call_llama_api`: return the backend text on a 200
reply; on a non-200 status, a timeout, or any exception return the
deterministic mock fallback. -/
def call_llama_api (outcome : ApiOutcome) (prompt : String) : String :=
  match outcome with
  | .ok text => text
  | .httpError _ _ => get_mock_response prompt
  | .timeout => get_mock_response prompt
  | .exception _ => get_mock_response prompt

/-! ## `llama_service.py`: legacy response parsing -/

/-- `UniversalLLaMAService._normalize_verdict`. -/
def normalize_verdict (verdict : String) : String :=
  let v := pyStrip (pyLower verdict)
  if (["true", "correct", "accurate", "yes", "confirmed", "factually correct"]).contains v then
    "True"
  else if (["false", "incorrect", "inaccurate", "no", "wrong",
      "scientifically incorrect"]).contains v then "False"
  else if (["partially true", "partly true", "mixed", "partial"]).contains v then
    "Partially True"
  else if (["requires investigation", "requires detailed investigation",
      "needs investigation"]).contains v then "Requires Investigation"
  else if (["requires context", "context dependent", "needs context"]).contains v then
    "Requires Context"
  else "Unverified"

/-- Greedy capture of `\d+(?:\.\d+)?` at the head of the input. -/
def captureNumber (l : List Char) : Option (List Char) :=
  let d1 := l.takeWhile Char.isDigit
  if d1.isEmpty then none
  else
    match l.drop d1.length with
    | '.' :: rf =>
      let fd := rf.takeWhile Char.isDigit
      if fd.isEmpty then some d1 else some (d1 ++ '.' :: fd)
    | _ => some d1

/-- Try the legacy confidence pattern `confidence:\s*(\d+(?:\.\d+)?)%?` at the
current position (the input is already lowercased). -/
def tryConfidenceColonAt (l : List Char) : Option ℚ :=
  let lit := ("confidence:").data
  if lit.isPrefixOf l then
    let r := (l.drop lit.length).dropWhile pyIsSpace
    (captureNumber r).map (fun d => numValue d)
  else none

/-- Search the legacy confidence pattern anywhere in the text. -/
def searchConfidenceColon : List Char → Option ℚ
  | [] => none
  | c :: rest =>
    match tryConfidenceColonAt (c :: rest) with
    | some q => some q
    | none => searchConfidenceColon rest

/-- `UniversalLLaMAService._parse_text_response` (the fallback parser for
non-JSON replies). -/
def parse_text_response (response original_claim : String) : List (String × PyVal) :=
  let response_lower := pyLower response
  let verdict0 :=
    if strIn ("verdict: true") response_lower then "True"
    else if strIn ("verdict: false") response_lower then "False"
    else if strIn ("verdict: partially true") response_lower then "Partially True"
    else if strIn ("verdict: requires") response_lower then "Requires Investigation"
    else "Unverified"
  let confidence0 : ℚ := (searchConfidenceColon response_lower.data).getD 50.0
  let (verdict, confidence) :=
    if verdict0 == "Unverified" then
      if containsAnyWord response_lower
          ["scientifically incorrect", "contradicts", "false", "incorrect", "wrong"] then
        ("False", pyMax confidence0 80.0)
      else if containsAnyWord response_lower
          ["correct", "accurate", "confirmed", "true", "factually correct"] then
        ("True", pyMax confidence0 80.0)
      else (verdict0, confidence0)
    else (verdict0, confidence0)
  let explanation :=
    if response.data.length > 500 then (⟨response.data.take 500⟩ : String) ++ ("...")
    else response
  [("verdict", .pyStr verdict),
   ("confidence_score", .pyNum confidence),
   ("explanation", .pyStr explanation),
   ("key_evidence", .pyList []),
   ("sources_needed", .pyList [.pyStr "authoritative sources"]),
   ("reasoning_steps", .pyList [.pyStr "Analyzed claim text"]),
   ("caveats", .pyList [.pyStr "Response could not be fully parsed"]),
   ("raw_response", .pyStr response)]

/-- The `try` body of `_parse_llama_response`: extract the first-`\x7b` to
last-`\x7d` substring, `json.loads` it, and normalize the fields.  Raises
(`Except.error`) exactly where the Python body raises. -/
def parse_llama_response_structured (response original_claim : String) :
    Except PyErr (List (String × PyVal)) := do
  let response_clean := pyStrip response
  let json_start : ℤ := pyFindChar response_clean.data '\x7b' 0
  let json_end : ℤ := pyRFindChar response_clean.data '\x7d' + 1
  if 0 ≤ json_start ∧ json_start < json_end then do
    let json_str : String :=
      ⟨(response_clean.data.drop json_start.toNat).take (json_end - json_start).toNat⟩
    match pyJsonLoads json_str with
    | none => Except.error (.jsonDecodeError ("Expecting value"))
    | some (.pyDict parsed) => do
      let rawVerdict := (pyDictGet parsed ("verdict")).getD (.pyStr "Unverified")
      let verdictStr ← match rawVerdict with
        | .pyStr s => Except.ok s
        | _ => Except.error (.attributeError ("object has no attribute \x27lower\x27"))
      let conf ← pyFloat ((pyDictGet parsed ("confidence_score")).getD (.pyNum 50.0))
      Except.ok
        [("verdict", .pyStr (normalize_verdict verdictStr)),
         ("confidence_score", .pyNum conf),
         ("explanation", (pyDictGet parsed ("explanation")).getD (.pyStr "No explanation provided")),
         ("key_evidence", (pyDictGet parsed ("key_evidence")).getD (.pyList [])),
         ("sources_needed", (pyDictGet parsed ("sources_needed")).getD (.pyList [])),
         ("reasoning_steps", (pyDictGet parsed ("reasoning_steps")).getD (.pyList [])),
         ("caveats", (pyDictGet parsed ("caveats")).getD (.pyList [])),
         ("raw_response", .pyStr response)]
    | some _ =>
      -- unreachable: a text that starts with a brace only loads as a dict
      Except.error (.typeError ("parsed value is not a dict"))
  else Except.error (.valueError ("No valid JSON found in response"))

/-- `UniversalLLaMAService._parse_llama_response`: the structured parse with
the `except Exception` fallback to `_parse_text_response`. -/
def parse_llama_response (response original_claim : String) : List (String × PyVal) :=
  match parse_llama_response_structured response original_claim with
  | .ok d => d
  | .error _ => parse_text_response response original_claim

/-! ## `llama_service.py`: demo responses (`_create_demo_response`) -/

/-- Default demo response segments of `_create_demo_response` (f-string,
source lines 722-740), interpolating the verdict, the rendered confidence,
the claim, the claim type (twice) and the lowercased verdict. -/
def default_demo_response (claim claim_type verdict : String) (confidence : ℚ) : String :=
  "\x7b\n    \"verdict\": \"" ++ verdict ++
  "\",\n    \"confidence_score\": " ++ pyNumRepr confidence ++
  ",\n    \"explanation\": \"The claim \x27" ++ claim ++
  "\x27 has been classified as " ++ claim_type ++
  " type and analyzed using available information. Based on preliminary analysis, this claim appears to be " ++ pyLower verdict ++
  " with moderate confidence.\",\n    \"key_evidence\": [\n        \"Claim type: " ++ claim_type ++
  "\",\n        \"Preliminary analysis completed\",\n        \"Standard verification protocols applied\",\n        \"Assessment based on available information patterns\"\n    ],\n    \"sources_needed\": [\"Academic databases\", \"Expert networks\", \"Primary sources\", \"Fact-checking organizations\"],\n    \"reasoning_steps\": [\n        \"Classified claim type and complexity\",\n        \"Applied standard verification methodology\",\n        \"Assessed available information patterns\",\n        \"Determined preliminary verdict based on analysis\"\n    ],\n    \"caveats\": [\"Limited by demo mode constraints\", \"Requires comprehensive source verification\", \"May need expert consultation\"]\n\x7d"

/-- `UniversalLLaMAService._create_demo_response`.  Returns `none` exactly
where the Python function falls past the end of its `if`/`elif` chain and
implicitly returns `None` (an entered branch whose inner `if` fails). -/
def create_demo_response (claim : String) (claim_type : String) : Option String :=
  let cl := pyLower claim
  if strIn ("flat") cl && (strIn ("earth") cl || strIn ("world") cl) then
    some flat_earth_demo_response
  else if (strIn ("sun") cl || strIn ("solar") cl) &&
      (strIn ("world") cl || strIn ("earth") cl) then
    if strIn ("bigger") cl || strIn ("larger") cl then some sun_earth_demo_response
    else none
  else if (strIn ("small") cl || strIn ("smaller") cl) &&
      containsAnyWord cl ["sun", "moon", "earth", "world"] then
    some earth_small_demo_response
  else if containsAnyWord cl ["2+2", "water", "h2o", "gravity", "speed of light"] then
    if strIn ("2+2") cl || strIn ("2 + 2") cl then some two_plus_two_demo_response
    else none
  else if strIn ("trump") cl && (strIn ("president") cl || strIn ("potus") cl) then
    some trump_demo_response
  else if containsAnyWord cl ["paris", "france", "london", "england", "tokyo", "japan"] then
    some paris_demo_response
  else if containsAnyWord cl ["climate", "global warming", "temperature", "ice caps"] then
    some (climate_demo_pre ++ claim ++ climate_demo_post)
  else
    let (verdict, confidence) : String × ℚ :=
      if containsAnyWord cl ["water is wet", "fire is hot", "ice is cold", "gravity"] then
        ("True", 85.0)
      else if containsAnyWord cl ["impossible", "never happened", "fake", "hoax"] then
        ("False", 80.0)
      else ("Unverified", 50.0)
    some (default_demo_response claim claim_type verdict confidence)

/-! ## `llama_service.py`: universal response parsing -/

/-- Separator class of the structured-info patterns (colon or whitespace). -/
def isColonSpace (c : Char) : Bool := c == ':' || pyIsSpace c

/-- Python `s.strip('"')`. -/
def pyStripQuotes (s : String) : String :=
  ⟨((s.data.dropWhile (fun c => c == '"')).reverse.dropWhile (fun c => c == '"')).reverse⟩

/-- Try one verdict-style pattern (a case-insensitive keyword, one or more
colon/whitespace characters, then a nonempty run of characters other than
comma and newline) at the current position.  The final branch models the
regex backtracking that hands trailing separator characters (which also match
the capture class unless they are newlines) back to the capture group. -/
def tryPatternCapture (key : List Char) (l : List Char) : Option (List Char) :=
  if ciPrefix key l then
    let r := l.drop key.length
    let seps := r.takeWhile isColonSpace
    let rest := r.drop seps.length
    if seps.isEmpty then none
    else
      let cap := rest.takeWhile (fun c => c != ',' && c != '\n')
      if !cap.isEmpty then some cap
      else
        let giveRev := seps.reverse.takeWhile (fun c => c != '\n')
        let give := if giveRev.length == seps.length then seps.length - 1 else giveRev.length
        if give == 0 then none else some (seps.drop (seps.length - give))
  else none

/-- `re.search` of a verdict-style pattern over the whole text. -/
def searchPattern (key : List Char) : List Char → Option (List Char)
  | [] => none
  | c :: rest =>
    match tryPatternCapture key (c :: rest) with
    | some cap => some cap
    | none => searchPattern key rest

/-- Try the universal confidence pattern (keyword `confidence`, one or more
colon/whitespace characters, then digits with an optional fraction). -/
def tryConfidenceSepAt (l : List Char) : Option ℚ :=
  if ciPrefix (("confidence").data) l then
    let r := l.drop 10
    let seps := r.takeWhile isColonSpace
    if seps.isEmpty then none
    else (captureNumber (r.drop seps.length)).map (fun d => numValue d)
  else none

/-- Search the universal confidence pattern over the whole text. -/
def searchConfidenceSep : List Char → Option ℚ
  | [] => none
  | c :: rest =>
    match tryConfidenceSepAt (c :: rest) with
    | some q => some q
    | none => searchConfidenceSep rest

/-- Try the explanation pattern (keyword `explanation`, separators, then a
nonempty dot-free run followed by a dot, captured including the dot). -/
def tryExplanationAt (l : List Char) : Option (List Char) :=
  if ciPrefix (("explanation").data) l then
    let r := l.drop 11
    let seps := r.takeWhile isColonSpace
    let rest := r.drop seps.length
    if seps.isEmpty then none
    else
      let nd := rest.takeWhile (fun c => c != '.')
      match rest.drop nd.length with
      | '.' :: _ =>
        if !nd.isEmpty then some (nd ++ ['.'])
        else if seps.length ≥ 2 then
          match seps.reverse with
          | s :: _ => some [s, '.']
          | [] => none
        else none
      | _ => none
  else none

/-- Search the explanation pattern over the whole text. -/
def searchExplanation : List Char → Option (List Char)
  | [] => none
  | c :: rest =>
    match tryExplanationAt (c :: rest) with
    | some cap => some cap
    | none => searchExplanation rest

/-- Sentence terminators of the fallback split `re.split(r'[.!?]+', s)`. -/
def isSentEnd (c : Char) : Bool := c == '.' || c == '!' || c == '?'

/-- `re.split(r'[.!?]+', s)`: split on maximal terminator runs, keeping empty
segments at the ends.  The boolean records whether the previous character was
a terminator; `acc` is the current segment reversed. -/
def splitSentencesGo : Bool → List Char → List Char → List (List Char)
  | _, acc, [] => [acc.reverse]
  | inSep, acc, c :: rest =>
    if isSentEnd c then
      if inSep then splitSentencesGo true acc rest
      else acc.reverse :: splitSentencesGo true [] rest
    else splitSentencesGo false (c :: acc) rest

/-- First sentence whose stripped form is longer than 20 characters, stripped
(the explanation fallback of `_extract_structured_info`). -/
def firstLongSentence (response : String) : Option String :=
  ((splitSentencesGo false [] response.data).map (fun l => pyStrip ⟨l⟩)).find?
    (fun s => s.data.length > 20)

/-- `UniversalLLaMAService._standardize_verdict`.  The last keyword group
refers to `VerdictType.DISPUTED`, which is not a member of the `VerdictType`
enum (source lines 53-64): reaching it raises `AttributeError` at runtime,
modelled as an error result. -/
def standardize_verdict (verdict_text : String) : Except PyErr String :=
  let v := pyLower verdict_text
  if containsAnyWord v ["true", "correct", "accurate", "valid"] then
    Except.ok (VerdictType.TRUE.value)
  else if containsAnyWord v ["false", "incorrect", "wrong", "invalid"] then
    Except.ok (VerdictType.FALSE.value)
  else if containsAnyWord v ["partial", "mostly", "somewhat"] then
    Except.ok (VerdictType.PARTIALLY_TRUE.value)
  else if containsAnyWord v ["misleading", "deceptive"] then
    Except.ok (VerdictType.MISLEADING.value)
  else if containsAnyWord v ["context", "depends", "conditional"] then
    Except.ok (VerdictType.REQUIRES_CONTEXT.value)
  else if containsAnyWord v ["disputed", "controversial", "debated"] then
    Except.error (.attributeError ("type object \x27VerdictType\x27 has no attribute \x27DISPUTED\x27"))
  else Except.ok (VerdictType.UNVERIFIED.value)

/-- `UniversalLLaMAService._extract_structured_info`.  Raises exactly where
the Python body raises (through `_standardize_verdict`). -/
def extract_structured_info (response : String) : Except PyErr (List (String × PyVal)) := do
  let d : List (String × PyVal) := []
  let verdictCap :=
    match searchPattern (("verdict").data) response.data with
    | some cap => some cap
    | none =>
      match searchPattern (("conclusion").data) response.data with
      | some cap => some cap
      | none => searchPattern (("result").data) response.data
  let d ← match verdictCap with
    | some cap => do
      let verdict_text := pyStripQuotes (pyStrip ⟨cap⟩)
      let sv ← standardize_verdict verdict_text
      pure (pyDictSet d ("verdict") (.pyStr sv))
    | none => pure d
  let d := match searchConfidenceSep response.data with
    | some q => pyDictSet d ("confidence_score") (.pyNum q)
    | none => d
  let d := match searchExplanation response.data with
    | some cap => pyDictSet d ("explanation") (.pyStr (pyStrip ⟨cap⟩))
    | none =>
      match firstLongSentence response with
      | some s => pyDictSet d ("explanation") (.pyStr s)
      | none => d
  pure d

/-- `ClaimCategory → list of sources` map of `_get_category_sources` (with its
`GENERAL` default for the unlisted categories). -/
def get_category_sources : ClaimCategory → List String
  | .scientific => ["Peer-reviewed journals", "Scientific databases", "Research institutions"]
  | .mathematical => ["Mathematical proofs", "Computational verification", "Mathematical journals"]
  | .historical => ["Primary historical sources", "Archaeological evidence", "Historical archives"]
  | .medical => ["Clinical studies", "Medical journals", "Health authorities"]
  | .statistical => ["Government statistics", "Survey data", "Statistical databases"]
  | .geographical => ["Geographic databases", "Mapping services", "Geographic surveys"]
  | .legal => ["Legal databases", "Court records", "Legislative documents"]
  | .biographical => ["Official biographies", "Historical records", "Verified databases"]
  | .comparative => ["Comparative studies", "Statistical analysis", "Research data"]
  | _ => ["Reliable news sources", "Fact-checking organizations", "Academic sources"]

/-- `UniversalLLaMAService._generate_intelligent_fallback_response`. -/
def generate_intelligent_fallback_response (claim : String) (category : ClaimCategory)
    (error_type : String) : List (String × PyVal) :=
  [("verdict", .pyStr (VerdictType.UNVERIFIED.value)),
   ("confidence_score", .pyNum 30.0),
   ("explanation", .pyStr ("Unable to complete " ++ category.value ++ (" analysis for \x27") ++
     claim ++ ("\x27 due to ") ++ error_type ++ (". Requires manual verification."))),
   ("claim_category", .pyStr category.value),
   ("error_type", .pyStr error_type),
   ("key_evidence", .pyList
     [.pyStr ("Claim categorized as " ++ category.value),
      .pyStr ("Analysis interrupted by " ++ error_type),
      .pyStr "Fallback response generated",
      .pyStr "Manual verification recommended"]),
   ("sources_needed", .pyList ((get_category_sources category).map PyVal.pyStr)),
   ("reasoning_steps", .pyList
     [.pyStr ("Categorized as " ++ category.value),
      .pyStr ("Attempted analysis but encountered " ++ error_type),
      .pyStr "Generated fallback response",
      .pyStr "Recommended manual verification"]),
   ("caveats", .pyList
     [.pyStr ("Analysis incomplete due to " ++ error_type),
      .pyStr "Requires retry or manual verification"])]

/-- `re.search(r'\x7b.*\x7d', s, re.DOTALL)`: the substring from the first
opening brace to the last closing brace, when one exists after the other. -/
def brace_search (s : String) : Option String :=
  let i := pyFindChar s.data '\x7b' 0
  let j := pyRFindChar s.data '\x7d'
  if 0 ≤ i ∧ i < j then some ⟨(s.data.drop i.toNat).take (j + 1 - i).toNat⟩
  else none

/-- `_adjust_confidence_by_category` applied to the dynamic value read from
the response dictionary: for the four special categories Python compares or
multiplies the value, raising `TypeError` on non-numbers (booleans are
numeric); every other category returns the value unchanged. -/
def adjust_confidence_py (confidence : PyVal) (category : ClaimCategory) :
    Except PyErr PyVal :=
  match category with
  | .mathematical | .medical | .opinion_based | .scientific =>
    (match confidence with
     | .pyNum q => Except.ok (.pyNum (adjust_confidence_by_category q category))
     | .pyBool b =>
       Except.ok (.pyNum (adjust_confidence_by_category (if b then 1 else 0) category))
     | _ => Except.error (.typeError ("not supported between instances of \x27str\x27 and \x27int\x27")))
  | _ => Except.ok confidence

/-- `UniversalLLaMAService._parse_universal_response`.  The `try` body is run;
only `json.JSONDecodeError` and `KeyError` are caught (yielding the category
fallback with error type `parsing_error`); any other exception — the
`AttributeError` from `_standardize_verdict` or a `TypeError` from the
confidence adjustment — propagates to the caller.  The `config` parameter is
threaded through as in the source (its `confidence_threshold` is read into an
unused local there). -/
def parse_universal_response (llama_response claim : String) (category : ClaimCategory)
    (config : List (String × PyVal)) : Except PyErr (List (String × PyVal)) :=
  let body : Except PyErr (List (String × PyVal)) := do
    let rd ← match brace_search llama_response with
      | some json_str =>
        (match pyJsonLoads json_str with
         | some (.pyDict d) => Except.ok d
         | some _ => Except.error (.typeError ("parsed value is not a dict"))
         | none => Except.error (.jsonDecodeError ("Expecting value")))
      | none => extract_structured_info llama_response
    let rd := pyDictSet rd ("claim_category") (.pyStr category.value)
    let rd := pyDictSet rd ("analysis_framework") (.pyStr (category.value ++ ("_analysis")))
    let original_confidence := (pyDictGet rd ("confidence_score")).getD (.pyNum 50.0)
    let adjusted ← adjust_confidence_py original_confidence category
    let rd := pyDictSet rd ("confidence_score") adjusted
    let rd :=
      if (pyDictGet rd ("verdict")).isNone then
        pyDictSet rd ("verdict") (.pyStr (VerdictType.UNVERIFIED.value))
      else rd
    let rd :=
      if (pyDictGet rd ("explanation")).isNone then
        pyDictSet rd ("explanation")
          (.pyStr ("Analysis completed for " ++ category.value ++ (" claim: ") ++ claim))
      else rd
    Except.ok rd
  match body with
  | .ok rd => Except.ok rd
  | .error (.jsonDecodeError _) =>
    Except.ok (generate_intelligent_fallback_response claim category ("parsing_error"))
  | .error (.keyError _) =>
    Except.ok (generate_intelligent_fallback_response claim category ("parsing_error"))
  | .error e => Except.error e

/-! ## `llama_service.py`: categorization and the universal entry points -/

/-- `category_configs` dictionary of `_init_category_configs`: exactly six
categories have an entry — notably, `GENERAL` has none. -/
def category_configs : ClaimCategory → Option (List (String × PyVal))
  | .scientific => some
    [("confidence_threshold", .pyNum 0.8), ("evidence_weight", .pyNum 0.9),
     ("methodology_focus", .pyBool true), ("peer_review_importance", .pyBool true)]
  | .mathematical => some
    [("confidence_threshold", .pyNum 0.95), ("evidence_weight", .pyNum 0.99),
     ("logical_proof_required", .pyBool true), ("computational_verification", .pyBool true)]
  | .historical => some
    [("confidence_threshold", .pyNum 0.7), ("evidence_weight", .pyNum 0.8),
     ("source_reliability", .pyBool true), ("temporal_context", .pyBool true)]
  | .medical => some
    [("confidence_threshold", .pyNum 0.85), ("evidence_weight", .pyNum 0.9),
     ("clinical_evidence", .pyBool true), ("safety_priority", .pyBool true)]
  | .statistical => some
    [("confidence_threshold", .pyNum 0.8), ("evidence_weight", .pyNum 0.85),
     ("data_quality", .pyBool true), ("methodology_critical", .pyBool true)]
  | .opinion_based => some
    [("confidence_threshold", .pyNum 0.3), ("evidence_weight", .pyNum 0.4),
     ("subjective_nature", .pyBool true), ("context_dependent", .pyBool true)]
  | _ => none

/-- The `claim` argument of `analyze_claim_universal` as it is actually
passed at the call sites: a string from direct calls, or — through the
shadowing `analyze_claim(claim, context)` compatibility method — the
verification-context dictionary that `check_fact` builds. -/
inductive ClaimArg where
  | ofStr (s : String)
  | ofDict (ctx : VerificationContext)

/-- Python `str()` of the claim argument inside f-strings.  Unreachable for
the dictionary case: categorization raises before any formatting. -/
def claimArgStr : ClaimArg → String
  | .ofStr s => s
  | .ofDict _ => "<verification context>"

/-- Search for `\d+\s*[+\-*/=]\s*\d+` at the current position. -/
def tryMathExprAt (l : List Char) : Bool :=
  let d1 := l.takeWhile Char.isDigit
  if d1.isEmpty then false
  else
    match (l.drop d1.length).dropWhile pyIsSpace with
    | op :: r2 =>
      if op == '+' || op == '-' || op == '*' || op == '/' || op == '=' then
        !((r2.dropWhile pyIsSpace).takeWhile Char.isDigit).isEmpty
      else false
    | [] => false

/-- Search for an arithmetic expression anywhere in the claim. -/
def searchMathExpr : List Char → Bool
  | [] => false
  | c :: rest => tryMathExprAt (c :: rest) || searchMathExpr rest

/-- Python `max(scores.items(), key=...)`: the first pair with the maximal
score, in iteration order. -/
def pickBestCategory : List (ClaimCategory × ℚ) → (ClaimCategory × ℚ) → (ClaimCategory × ℚ)
  | [], best => best
  | x :: xs, best => pickBestCategory xs (if best.2 < x.2 then x else best)

/-- `UniversalLLaMAService._categorize_claim_advanced`.  Calling `.lower()` on
the dictionary passed through the compatibility method raises
`AttributeError`.  The `entities` read from the context in the source is dead
code (never used) and is not modelled. -/
def categorize_claim_advanced (claim : ClaimArg) (context : Option VerificationContext) :
    Except PyErr (ClaimCategory × ℚ) :=
  match claim with
  | .ofDict _ =>
    Except.error (.attributeError ("\x27dict\x27 object has no attribute \x27lower\x27"))
  | .ofStr s =>
    let claim_lower := pyLower s
    let scientific_keywords : List String :=
      ["theory", "experiment", "research", "study", "evidence", "hypothesis",
       "molecule", "atom", "gene", "species", "evolution", "gravity", "energy"]
    let scientific_score : ℚ :=
      ((scientific_keywords.countP (fun w => strIn w claim_lower) : ℕ) : ℚ) / 13
    let math_keywords : List String :=
      ["equals", "plus", "minus", "multiply", "divide", "theorem", "proof", "formula"]
    let math_score : ℚ :=
      ((math_keywords.countP (fun w => strIn w claim_lower) : ℕ) : ℚ) / 8 +
        (if searchMathExpr s.data then 0.5 else 0)
    let historical_keywords : List String :=
      ["century", "year", "ago", "ancient", "medieval", "war", "empire", "revolution"]
    let historical_score : ℚ :=
      ((historical_keywords.countP (fun w => strIn w claim_lower) : ℕ) : ℚ) / 8 +
        (if (List.range' 1000 1025).any (fun y => strIn (toString y) s) then 0.3 else 0)
    let medical_keywords : List String :=
      ["disease", "treatment", "medicine", "doctor", "patient", "symptoms", "diagnosis"]
    let medical_score : ℚ :=
      ((medical_keywords.countP (fun w => strIn w claim_lower) : ℕ) : ℚ) / 7
    Except.ok (pickBestCategory
      [(.mathematical, math_score),
       (.historical, historical_score),
       (.medical, medical_score),
       (.statistical,
         if containsAnyWord claim_lower ["percent", "statistics", "data", "survey"] then 0.1 else 0),
       (.geographical,
         if containsAnyWord claim_lower ["country", "city", "mountain", "river", "continent"] then 0.1 else 0),
       (.comparative,
         if containsAnyWord claim_lower ["bigger", "smaller", "faster", "slower", "more", "less"] then 0.2 else 0),
       (.general, 0.1)]
      (.scientific, scientific_score))

/-- Round half to even (Python float formatting tie-break). -/
def roundHalfEven (x : ℚ) : ℤ :=
  let f := ⌊x⌋
  let r := x - (f : ℚ)
  if r < 1/2 then f
  else if 1/2 < r then f + 1
  else if f % 2 = 0 then f else f + 1

/-- Python `f"\x7bq:.1%\x7d"` for the non-negative category confidences. -/
def formatPercent1 (q : ℚ) : String :=
  let n := (roundHalfEven (q * 1000)).toNat
  toString (n / 10) ++ (".") ++ toString (n % 10) ++ ("%")

/-- `UniversalLLaMAService._generate_intelligent_demo_response`. -/
def generate_intelligent_demo_response (claim : String) (category : ClaimCategory)
    (category_confidence : ℚ) : List (String × PyVal) :=
  let cl := pyLower claim
  let (verdict, confidence, explanation) : VerdictType × ℚ × String :=
    if category = .mathematical then
      if strIn ("2+2") cl || strIn ("2 + 2") cl then
        (.TRUE, 100.0,
          "Mathematical verification: 2 + 2 = 4 is arithmetically correct in all standard number systems.")
      else
        (.PARTIALLY_TRUE, 85.0, "Mathematical claim \x27" ++ claim ++
          ("\x27 requires computational verification and formal proof analysis."))
    else if category = .scientific then
      if containsAnyWord cl ["water boils at 100", "gravity exists", "earth round"] then
        (.TRUE, 95.0,
          "Scientific consensus strongly supports this claim with extensive experimental evidence.")
      else
        (.REQUIRES_CONTEXT, 70.0, "Scientific claim \x27" ++ claim ++
          ("\x27 requires peer-reviewed analysis and experimental validation."))
    else if category = .historical then
      (.PARTIALLY_TRUE, 75.0, "Historical claim \x27" ++ claim ++
        ("\x27 requires examination of primary sources and scholarly consensus."))
    else if category = .medical then
      (.REQUIRES_CONTEXT, 60.0, "Medical claim \x27" ++ claim ++
        ("\x27 requires clinical evidence review and professional medical consultation."))
    else
      (.UNVERIFIED, 50.0, "Claim \x27" ++ claim ++ ("\x27 categorized as ") ++
        category.value ++ (" requires comprehensive fact-checking analysis."))
  [("verdict", .pyStr verdict.value),
   ("confidence_score", .pyNum confidence),
   ("explanation", .pyStr explanation),
   ("claim_category", .pyStr category.value),
   ("category_confidence", .pyNum category_confidence),
   ("key_evidence", .pyList
     [.pyStr ("Category: " ++ category.value ++ (" (confidence: ") ++
        formatPercent1 category_confidence ++ (")")),
      .pyStr "Demo mode intelligent analysis applied",
      .pyStr "Category-specific reasoning framework used",
      .pyStr "Confidence adjusted for claim type"]),
   ("sources_needed", .pyList ((get_category_sources category).map PyVal.pyStr)),
   ("reasoning_steps", .pyList
     [.pyStr ("Categorized claim as " ++ category.value),
      .pyStr "Applied category-specific analysis framework",
      .pyStr ("Determined verdict: " ++ verdict.value),
      .pyStr ("Calculated confidence: " ++ pyNumRepr confidence ++ ("%"))]),
   ("caveats", .pyList
     [.pyStr ("Demo mode - " ++ category.value ++ (" analysis")),
      .pyStr "Requires real-world verification"])]

/-- `UniversalLLaMAService.analyze_claim_universal`.  The steps run in source
order: categorization first (raising `AttributeError` for a dictionary
claim), then the configuration lookup — whose Python default argument
`self.category_configs[ClaimCategory.GENERAL]` is evaluated eagerly and
always raises `KeyError`, since `GENERAL` has no entry — and only then the
demo-mode branch or the guarded backend call. -/
def analyze_claim_universal (demo_mode : Bool) (outcome : ApiOutcome) (claim : ClaimArg)
    (context : Option VerificationContext) : Except PyErr (List (String × PyVal)) := do
  let (claim_category, category_confidence) ← categorize_claim_advanced claim context
  let defaultConfig ← match category_configs ClaimCategory.general with
    | some cfg => Except.ok cfg
    | none => Except.error (PyErr.keyError ("<ClaimCategory.GENERAL: \x27general\x27>"))
  let config := (category_configs claim_category).getD defaultConfig
  if demo_mode then
    match claim with
    | .ofStr s =>
      Except.ok (generate_intelligent_demo_response s claim_category category_confidence)
    | .ofDict _ =>
      Except.error (.attributeError ("\x27dict\x27 object has no attribute \x27lower\x27"))
  else
    match outcome with
    | .ok text =>
      (match parse_universal_response text (claimArgStr claim) claim_category config with
       | .ok rd => Except.ok rd
       | .error _ =>
         Except.ok (generate_intelligent_fallback_response (claimArgStr claim)
           claim_category ("unexpected_error")))
    | .timeout =>
      Except.ok (generate_intelligent_fallback_response (claimArgStr claim)
        claim_category ("timeout"))
    | .httpError _ _ =>
      Except.ok (generate_intelligent_fallback_response (claimArgStr claim)
        claim_category ("http_error"))
    | .exception _ =>
      Except.ok (generate_intelligent_fallback_response (claimArgStr claim)
        claim_category ("unexpected_error"))

/-- The effective `UniversalLLaMAService.analyze_claim`: the second definition
(source line 1031) shadows the context-based one (line 241), so the
verification context that `check_fact` passes positionally becomes the
`claim` argument of the universal analysis, with `context = None`. -/
def analyze_claim (demo_mode : Bool) (outcome : ApiOutcome)
    (verification_context : VerificationContext) : Except PyErr (List (String × PyVal)) :=
  analyze_claim_universal demo_mode outcome (.ofDict verification_context) none

/-! ## `fact_checker.py`: the orchestrator -/

/-- Numbered lines `f"\x7bi\x7d. \x7bitem\x7d\n"` of `_format_explanation`. -/
def enumLines : ℕ → List PyVal → String
  | _, [] => ""
  | i, v :: vs => toString i ++ (". ") ++ pyValStr v ++ ("\n") ++ enumLines (i + 1) vs

/-- `FactCheckerService._format_explanation`.  The Python `+=` on the raw
`explanation` value requires a string; every modelled path stores a string
there, rendered via `pyValStr`. -/
def format_explanation (analysis_result : List (String × PyVal)) : String :=
  let explanation :=
    pyValStr ((pyDictGet analysis_result ("explanation")).getD (.pyStr "No explanation provided."))
  let key_evidence :=
    match pyDictGet analysis_result ("key_evidence") with
    | some (.pyList xs) => xs
    | _ => []
  let reasoning_steps :=
    match pyDictGet analysis_result ("reasoning_steps") with
    | some (.pyList xs) => xs
    | _ => []
  let caveats :=
    match pyDictGet analysis_result ("caveats") with
    | some (.pyList xs) => xs
    | _ => []
  let e1 :=
    if !key_evidence.isEmpty then
      explanation ++ ("\n\nKey Evidence:\n") ++ enumLines 1 (key_evidence.take 3)
    else explanation
  let e2 :=
    if !reasoning_steps.isEmpty then
      e1 ++ ("\nReasoning Process:\n") ++ enumLines 1 (reasoning_steps.take 3)
    else e1
  let e3 :=
    if !caveats.isEmpty then
      e2 ++ ("\nImportant Notes:\n") ++
        String.join ((caveats.take 2).map (fun c => ("• ") ++ pyValStr c ++ ("\n")))
    else e2
  pyStrip e3

/-- A JSON string literal as `json.dumps` renders it (no escaping is needed by
any modelled value). -/
def jsonDumpStr (s : String) : String := ("\"") ++ s ++ ("\"")

/-- `FactCheckerService._format_sources`. -/
def format_sources (analysis_result : List (String × PyVal)) : Option String :=
  match pyDictGet analysis_result ("sources_needed") with
  | some (.pyList xs) =>
    if xs.isEmpty then none
    else some (("\x7b\"sources_needed\": [") ++
      pyJoin (", ") (xs.map (fun v => jsonDumpStr (pyValStr v))) ++
      ("], \"model_used\": ") ++
      jsonDumpStr (pyValStr ((pyDictGet analysis_result ("model_used")).getD (.pyStr "unknown"))) ++
      ("\x7d"))
  | _ => none

/-- `FactCheckerService.check_fact`: preprocess, build the verification
context, run the (effective) `analyze_claim`, and store one record; any
exception is caught and stored as an `Unverified` record with confidence 0.
Wall-clock processing times are modelled as 0. -/
def check_fact (demo_mode pathway_ok : Bool) (outcome : ApiOutcome) (ms : MemoryStore)
    (claim : String) (session_id : Option String) : MemoryStore × FactRecord :=
  let processed_claim := preprocess_claim pathway_ok claim
  let verification_context := create_verification_context processed_claim
  match analyze_claim demo_mode outcome verification_context with
  | .ok analysis_result =>
    ms.add_result (pyStrip claim)
      ((pyDictGet analysis_result ("verdict")).getD (.pyStr "Unverified"))
      ((pyDictGet analysis_result ("confidence_score")).getD (.pyNum 0.0))
      (format_explanation analysis_result)
      (some 0)
      (format_sources analysis_result)
      session_id
  | .error e =>
    ms.add_result (pyStrip claim) (.pyStr "Unverified") (.pyNum 0.0)
      (("Fact-checking failed due to technical error: ") ++ pyErrStr e ++
        (". Please try again later."))
      (some 0) none session_id

/-! ## Support definitions for the checked claims -/

/-- A character that may sit unescaped inside a JSON string literal: not a
control character, not a quote, not a backslash. -/
def jsonSafeChar (c : Char) : Bool := decide (0x20 ≤ c.toNat) && c != '"' && c != '\\'

/-- The explanation prefix of the mock fallback template, up to the embedded
claim. -/
def mock_expl_pre : String := "I apologize, but I cannot verify \x27"

/-- The explanation suffix of the mock fallback template, after the embedded
claim. -/
def mock_expl_post : String :=
  "\x27 at this time due to service unavailability. To properly fact-check this claim, I would need access to current databases and reliable sources. Please try again later or consult authoritative sources manually."

/-- The dictionary obtained by `json.loads` on the mock fallback text for a
given embedded claim. -/
def mock_json_pairs (claim : String) : List (String × PyVal) :=
  [("verdict", .pyStr "Unverified"),
   ("confidence_score", .pyNum 30),
   ("explanation", .pyStr (mock_expl_pre ++ claim ++ mock_expl_post)),
   ("key_evidence", .pyList []),
   ("sources_needed", .pyList
     [.pyStr "authoritative databases", .pyStr "reliable news sources",
      .pyStr "academic sources"]),
   ("reasoning_steps", .pyList
     [.pyStr "Service unavailable", .pyStr "Unable to access verification resources"]),
   ("caveats", .pyList
     [.pyStr "LLaMA service temporarily unavailable",
      .pyStr "Manual verification recommended"])]

/-- Automaton stack while the mock template's explanation string is being
read: one object frame holding the two members already parsed. -/
def mockParseFrames : List JFrame :=
  [.inObj [("verdict", .pyStr "Unverified"), ("confidence_score", .pyNum 30)]
    ("explanation")]

/-- Automaton state reached after consuming `mock_response_pre`: inside the
explanation string, its prefix accumulated (reversed). -/
def mockParseState1 : PState :=
  .sStr mock_expl_pre.data.reverse (.asValue mockParseFrames)

/-- The object-member list produced by the automaton at the closing brace of
the mock template, with `A` the reversed accumulator that held the embedded
claim when the explanation string closed. -/
def mockPairsWith (A : List Char) : List (String × PyVal) :=
  [("verdict", .pyStr "Unverified"),
   ("confidence_score", .pyNum 30),
   ("explanation", .pyStr ⟨A.reverseAux mock_expl_post.data⟩),
   ("key_evidence", .pyList []),
   ("sources_needed", .pyList
     [.pyStr "authoritative databases", .pyStr "reliable news sources",
      .pyStr "academic sources"]),
   ("reasoning_steps", .pyList
     [.pyStr "Service unavailable", .pyStr "Unable to access verification resources"]),
   ("caveats", .pyList
     [.pyStr "LLaMA service temporarily unavailable",
      .pyStr "Manual verification recommended"])]

/-- Insert `n` dummy results through `add_result` (claims C8/C10 only depend
on the generated ids). -/
def addDummyResults : MemoryStore → ℕ → MemoryStore
  | ms, 0 => ms
  | ms, n + 1 =>
    addDummyResults
      (ms.add_result ("test claim") (.pyStr "True") (.pyNum 90) ("explanation")
        (some 5) none none).1 n

/-- Strictly descending test for a list of ids. -/
def strictDescBool : List ℕ → Bool
  | [] => true
  | [_] => true
  | a :: b :: rest => Nat.blt b a && strictDescBool (b :: rest)

/-! ## Theorems

The arithmetic operations on `ℚ` are marked irreducible by the library; the
attribute below restores definitional unfolding for them inside this section
so that concrete runs of the embedded code can be checked by `rfl`/`decide`. -/

section Theorems

attribute [local semireducible] Rat.mul Rat.add Rat.inv Rat.sub Rat.ofScientific

set_option maxRecDepth 40000

/-- `pyMin` agrees with the order-theoretic minimum. -/
theorem pyMin_eq_min (a b : ℚ) : pyMin a b = min a b := by
  unfold pyMin
  rcases le_total a b with h | h
  · rw [if_pos h, min_eq_left h]
  · rcases eq_or_lt_of_le h with rfl | hlt
    · simp
    · rw [if_neg (not_le.mpr hlt), min_eq_right h]

/-- `pyMax` agrees with the order-theoretic maximum. -/
theorem pyMax_eq_max (a b : ℚ) : pyMax a b = max a b := by
  unfold pyMax
  rcases le_total b a with h | h
  · rw [if_pos h, max_eq_left h]
  · rcases eq_or_lt_of_le h with rfl | hlt
    · simp
    · rw [if_neg (not_le.mpr hlt), max_eq_right h]

/-- Running the JSON automaton over a concatenation is running it over the
pieces in sequence. -/
theorem consume_append (a b : List Char) :
    ∀ st : PState, consume st (a ++ b) = (consume st a).bind (fun st2 => consume st2 b) := by
  induction a with
  | nil => intro st; simp [consume]
  | cons c cs ih =>
    intro st
    simp only [List.cons_append, consume]
    cases h : step st c
    · simp
    · simp [ih]

/-- Inside a string literal, safe characters are accumulated one by one. -/
theorem consume_sStr_safe (cs : List Char) :
    ∀ (acc : List Char) (k : JStrK), (∀ c ∈ cs, jsonSafeChar c = true) →
      consume (.sStr acc k) cs = some (.sStr (cs.reverseAux acc) k) := by
  induction cs with
  | nil => intro acc k _; rfl
  | cons c rest ih =>
    intro acc k h
    have hc := h c (by simp)
    simp only [jsonSafeChar, Bool.and_eq_true, decide_eq_true_eq, bne_iff_ne] at hc
    have hstep : step (.sStr acc k) c = some (.sStr (c :: acc) k) := by
      have h1 : (c == '"') = false := by
        simp only [beq_eq_false_iff_ne]; exact hc.1.2
      have h2 : (c == '\\') = false := by
        simp only [beq_eq_false_iff_ne]; exact hc.2
      simp [step, h1, h2, hc.1.1]
    simp only [consume, hstep]
    exact ih (c :: acc) k (fun x hx => h x (by simp [hx]))

/-- Consuming the concrete text before the embedded claim of the mock
template lands the automaton inside the explanation string. -/
theorem mock_pre_consume :
    consume (.sVal []) mock_response_pre.data = some mockParseState1 := rfl

/-- Consuming the concrete text after the embedded claim closes the
explanation string, the remaining members, and the object, for any
accumulated prefix `A`. -/
theorem mock_post_consume (A : List Char) :
    consume (.sStr A (.asValue mockParseFrames)) mock_response_post.data =
      some (.sDone (.pyDict (mockPairsWith A))) := rfl

/-- The mock fallback text parses as the expected JSON object whenever the
embedded claim contains only JSON-string-safe characters. -/
theorem mock_parse_safe (claim : String)
    (h : ∀ c ∈ claim.data, jsonSafeChar c = true) :
    pyJsonLoads (mock_response_for claim) = some (.pyDict (mock_json_pairs claim)) := by
  unfold pyJsonLoads mock_response_for
  rw [String.data_append, String.data_append, List.append_assoc, consume_append,
    mock_pre_consume]
  simp only [Option.some_bind, mockParseState1]
  rw [consume_append, consume_sStr_safe claim.data _ _ h]
  simp only [Option.some_bind]
  rw [mock_post_consume]
  simp only [Option.some_bind, finishState]
  have hdata :
      (claim.data.reverseAux mock_expl_pre.data.reverse).reverseAux mock_expl_post.data =
        (mock_expl_pre ++ claim ++ mock_expl_post).data := by
    simp [List.reverseAux_eq, String.data_append, List.append_assoc]
  have hstr :
      (⟨(claim.data.reverseAux mock_expl_pre.data.reverse).reverseAux mock_expl_post.data⟩ :
        String) = mock_expl_pre ++ claim ++ mock_expl_post := congrArg String.mk hdata
  simp only [mockPairsWith, mock_json_pairs, hstr]

/-- A single-character search that returns index `i` saw no occurrence among
the first `i` characters. -/
theorem firstMatchIdx_single {c : Char} :
    ∀ (l : List Char) (i : ℕ), firstMatchIdx [c] l = some i →
      ∀ x ∈ l.take i, x ≠ c := by
  intro l
  induction l with
  | nil =>
    intro i h
    simp [firstMatchIdx, List.isPrefixOf] at h
  | cons d tl ih =>
    intro i h
    simp only [firstMatchIdx] at h
    by_cases hp : ([c].isPrefixOf (d :: tl)) = true
    · rw [if_pos hp] at h
      cases h
      intro y hy
      simp at hy
    · rw [if_neg hp] at h
      cases hm : firstMatchIdx [c] tl with
      | none =>
        rw [hm] at h
        exact Option.noConfusion h
      | some j =>
        rw [hm] at h
        have hji : j + 1 = i := by injection h
        subst hji
        intro x hx
        simp only [List.take_succ_cons, List.mem_cons] at hx
        rcases hx with rfl | hx
        · intro hxc
          apply hp
          simp [List.isPrefixOf, hxc]
        · exact ih j hm x hx

/-- `find` never returns anything below `-1`. -/
theorem pyFindFrom_neg_one_le (hay needle : List Char) (start : ℕ) :
    -1 ≤ pyFindFrom hay needle start := by
  unfold pyFindFrom
  cases hm : firstMatchIdx needle (hay.drop start) with
  | none => simp only [hm]; omega
  | some i => simp only [hm]; omega

/-- The claim extracted from a prompt never contains a double quote: it is
cut at the first quote following the marker. -/
theorem extract_claim_no_quote (prompt : String) :
    ∀ x ∈ (extract_claim_from_prompt prompt).data, x ≠ '"' := by
  intro x hx
  simp only [extract_claim_from_prompt] at hx
  split at hx
  case isTrue h =>
    have h19 : ((("CLAIM TO ANALYZE: \"").data).length : ℤ) = 19 := by decide
    have hge :
        -1 ≤ pyFindFrom prompt.data (("CLAIM TO ANALYZE: \"").data) 0 :=
      pyFindFrom_neg_one_le _ _ _
    set cs : ℤ :=
      pyFindFrom prompt.data (("CLAIM TO ANALYZE: \"").data) 0 +
        ((("CLAIM TO ANALYZE: \"").data).length : ℤ) with hcs
    have hcs18 : 18 ≤ cs := by omega
    simp only [pyFindChar, pyFindFrom] at h hx
    cases hm : firstMatchIdx ['"'] (prompt.data.drop cs.toNat) with
    | none =>
      simp only [hm] at h
      omega
    | some i =>
      simp only [hm] at h hx
      have hi : (((cs.toNat + i : ℕ) : ℤ) - cs).toNat = i := by omega
      rw [hi] at hx
      exact firstMatchIdx_single _ i hm x hx
  case isFalse =>
    have hall : ∀ y ∈ (("the claim") : String).data, y ≠ '"' := by decide
    exact hall x hx

/-- Claim C1: in demo mode the pipeline `check_fact` on the claim
`"The Earth is flat"` is specified to store verdict `False` with confidence
at least 99.  The code instead stores `Unverified` with confidence `0`: the
second `analyze_claim(claim, context)` definition shadows the context-based
one, so the verification context is passed as the claim and
`_categorize_claim_advanced` raises `AttributeError` on `dict.lower()`, which
`check_fact` absorbs into its error record.  The remaining conjuncts document
the intended path: the (shadowed) demo responder maps the claim to the
flat-earth canned JSON, which parses to verdict `False` with confidence
`99.9 ≥ 99`. -/
theorem claim_C1_demo_pipeline (pathway_ok : Bool) (outcome : ApiOutcome)
    (session : Option String) :
    ((check_fact true pathway_ok outcome MemoryStore.init ("The Earth is flat")
        session).2.verdict = .pyStr "Unverified" ∧
     (check_fact true pathway_ok outcome MemoryStore.init ("The Earth is flat")
        session).2.confidence_score = .pyNum 0) ∧
    create_demo_response ("The Earth is flat") (classify_claim_type ("The Earth is flat")) =
      some flat_earth_demo_response ∧
    pyDictGet (parse_llama_response flat_earth_demo_response ("The Earth is flat"))
      ("verdict") = some (.pyStr "False") ∧
    pyDictGet (parse_llama_response flat_earth_demo_response ("The Earth is flat"))
      ("confidence_score") = some (.pyNum 99.9) ∧
    (99 : ℚ) ≤ 99.9 := by
  refine ⟨⟨rfl, rfl⟩, rfl, rfl, rfl, by norm_num⟩

/-- Claim C2: the category confidence adjustment computes exactly the
specified formulas on `[0, 100]`, and leaves every other category unchanged. -/
theorem claim_C2_adjust_confidence_formulas (x : ℚ) (hx0 : 0 ≤ x) (hx1 : x ≤ 100) :
    adjust_confidence_by_category x .mathematical =
      (if x > 90 then min x 99.5 else x * 0.8) ∧
    adjust_confidence_by_category x .medical = min (x * 0.9) 85.0 ∧
    adjust_confidence_by_category x .opinion_based = min x 60.0 ∧
    adjust_confidence_by_category x .scientific = (if x < 70 then x * 0.85 else x) ∧
    ∀ cat : ClaimCategory,
      cat ∉ ([.mathematical, .medical, .opinion_based, .scientific] :
        List ClaimCategory) →
      adjust_confidence_by_category x cat = x := by
  refine ⟨?_, ?_, ?_, rfl, ?_⟩
  · simp only [adjust_confidence_by_category, pyMin_eq_min]
  · simp only [adjust_confidence_by_category, pyMin_eq_min]
  · simp only [adjust_confidence_by_category, pyMin_eq_min]
  · intro cat hcat
    cases cat <;> simp_all [adjust_confidence_by_category]

/-- Witness for claim C2 at the concrete confidence 50. -/
theorem claim_C2_witness :
    (0 : ℚ) ≤ 50 ∧ (50 : ℚ) ≤ 100 ∧
    adjust_confidence_by_category 50 .medical = min ((50 : ℚ) * 0.9) 85.0 :=
  ⟨by norm_num, by norm_num,
    (claim_C2_adjust_confidence_formulas 50 (by norm_num) (by norm_num)).2.1⟩

/-- Claim C3 counterexample: the Medical adjustment is not idempotent
(10 ↦ 9 ↦ 8.1), and input 95 in the Mathematical category yields 95, not the
99.5 stated by the claim. -/
theorem claim_C3_counterexample :
    adjust_confidence_by_category (adjust_confidence_by_category 10 .medical) .medical =
      8.1 ∧
    adjust_confidence_by_category 10 .medical = 9 ∧ (8.1 : ℚ) ≠ 9 ∧
    adjust_confidence_by_category 95 .mathematical = 95 ∧ (95 : ℚ) ≠ 99.5 :=
  ⟨by decide, by decide, by decide, by decide, by decide⟩

/-- Claim C3 (amended): re-application is idempotent only for the
Opinion-based cap; the Medical, Mathematical and Scientific rules are not
idempotent; and on the representative inputs, 95 in Mathematical stays 95
(it is only capped at 99.5), 95 in Opinion-based yields 60, and 95 in
Scientific stays 95. -/
theorem claim_C3_amended :
    (∀ x : ℚ,
      adjust_confidence_by_category (adjust_confidence_by_category x .opinion_based)
        .opinion_based = adjust_confidence_by_category x .opinion_based) ∧
    adjust_confidence_by_category (adjust_confidence_by_category 10 .medical) .medical ≠
      adjust_confidence_by_category 10 .medical ∧
    adjust_confidence_by_category (adjust_confidence_by_category 50 .mathematical)
      .mathematical ≠ adjust_confidence_by_category 50 .mathematical ∧
    adjust_confidence_by_category (adjust_confidence_by_category 40 .scientific)
      .scientific ≠ adjust_confidence_by_category 40 .scientific ∧
    adjust_confidence_by_category 95 .mathematical = 95 ∧
    adjust_confidence_by_category 95 .opinion_based = 60 ∧
    adjust_confidence_by_category 95 .scientific = 95 := by
  refine ⟨?_, by decide, by decide, by decide, by decide, by decide, by decide⟩
  intro x
  simp [adjust_confidence_by_category, pyMin_eq_min, min_assoc]

/-- A keyword hit gives a hit of its keyword list. -/
theorem containsAnyWord_of_mem {cl w : String} {ws : List String} (hw : w ∈ ws)
    (h : strIn w cl = true) : containsAnyWord cl ws = true := by
  unfold containsAnyWord
  rw [List.any_eq_true]
  exact ⟨w, hw, h⟩

/-- Claim C4: claim-type classification tests the six keyword sets in the
fixed priority order, returns the first set with a (substring) hit and
`general` when none hits; in particular any claim containing both `taller`
and `where` classifies as `measurement`. -/
theorem claim_C4_classification_priority :
    (∀ claim : String, strIn ("taller") (pyLower claim) = true →
      strIn ("where") (pyLower claim) = true →
      classify_claim_type claim = "measurement") ∧
    (∀ claim : String, containsAnyWord (pyLower claim) measurement_words = true →
      classify_claim_type claim = "measurement") ∧
    (∀ claim : String, containsAnyWord (pyLower claim) measurement_words = false →
      containsAnyWord (pyLower claim) temporal_words = true →
      classify_claim_type claim = "temporal") ∧
    (∀ claim : String, containsAnyWord (pyLower claim) measurement_words = false →
      containsAnyWord (pyLower claim) temporal_words = false →
      containsAnyWord (pyLower claim) geographical_words = true →
      classify_claim_type claim = "geographical") ∧
    (∀ claim : String, containsAnyWord (pyLower claim) measurement_words = false →
      containsAnyWord (pyLower claim) temporal_words = false →
      containsAnyWord (pyLower claim) geographical_words = false →
      containsAnyWord (pyLower claim) biographical_words = true →
      classify_claim_type claim = "biographical") ∧
    (∀ claim : String, containsAnyWord (pyLower claim) measurement_words = false →
      containsAnyWord (pyLower claim) temporal_words = false →
      containsAnyWord (pyLower claim) geographical_words = false →
      containsAnyWord (pyLower claim) biographical_words = false →
      containsAnyWord (pyLower claim) definitional_words = true →
      classify_claim_type claim = "definitional") ∧
    (∀ claim : String, containsAnyWord (pyLower claim) measurement_words = false →
      containsAnyWord (pyLower claim) temporal_words = false →
      containsAnyWord (pyLower claim) geographical_words = false →
      containsAnyWord (pyLower claim) biographical_words = false →
      containsAnyWord (pyLower claim) definitional_words = false →
      containsAnyWord (pyLower claim) comparative_words = true →
      classify_claim_type claim = "comparative") ∧
    (∀ claim : String, containsAnyWord (pyLower claim) measurement_words = false →
      containsAnyWord (pyLower claim) temporal_words = false →
      containsAnyWord (pyLower claim) geographical_words = false →
      containsAnyWord (pyLower claim) biographical_words = false →
      containsAnyWord (pyLower claim) definitional_words = false →
      containsAnyWord (pyLower claim) comparative_words = false →
      classify_claim_type claim = "general") := by
  refine ⟨?_, ?_, ?_, ?_, ?_, ?_, ?_, ?_⟩
  · intro claim h1 _
    have hm := containsAnyWord_of_mem
      (show ("taller" : String) ∈ measurement_words by simp [measurement_words]) h1
    simp [classify_claim_type, hm]
  all_goals intro claim
  all_goals intros
  all_goals simp_all [classify_claim_type]

/-- Witness for claim C4 on concrete claims for each priority level. -/
theorem claim_C4_witness :
    classify_claim_type ("Everest is taller and where is it") = "measurement" ∧
    classify_claim_type ("It is 3 meters long") = "measurement" ∧
    classify_claim_type ("when did it happen") = "temporal" ∧
    classify_claim_type ("where is the summit") = "geographical" ∧
    classify_claim_type ("the president said so") = "biographical" ∧
    classify_claim_type ("what does entropy mean") = "definitional" ∧
    classify_claim_type ("apples versus oranges") = "comparative" ∧
    classify_claim_type ("zzz qqq") = "general" :=
  ⟨claim_C4_classification_priority.1 _ (by decide) (by decide),
   claim_C4_classification_priority.2.1 _ (by decide),
   claim_C4_classification_priority.2.2.1 _ (by decide) (by decide),
   claim_C4_classification_priority.2.2.2.1 _ (by decide) (by decide) (by decide),
   claim_C4_classification_priority.2.2.2.2.1 _ (by decide) (by decide) (by decide)
     (by decide),
   claim_C4_classification_priority.2.2.2.2.2.1 _ (by decide) (by decide) (by decide)
     (by decide) (by decide),
   claim_C4_classification_priority.2.2.2.2.2.2.1 _ (by decide) (by decide) (by decide)
     (by decide) (by decide) (by decide),
   claim_C4_classification_priority.2.2.2.2.2.2.2 _ (by decide) (by decide) (by decide)
     (by decide) (by decide) (by decide)⟩

/-- Claim C5 counterexample: when the Pathway step fails, the fallback
descriptor for `"Everest is taller than K2"` carries the full classification
(`measurement`) and a nonempty key-term set — not the empty/`general`
descriptor stated by the claim. -/
theorem claim_C5_counterexample :
    (preprocess_claim false ("Everest is taller than K2")).claim_type = "measurement" ∧
    (preprocess_claim false ("Everest is taller than K2")).key_terms = ["everest"] ∧
    ("measurement" : String) ≠ "general" :=
  ⟨rfl, rfl, by decide⟩

/-- Claim C5 (amended): `preprocess_claim` is total (both branches are total
functions), and on an internal Pathway error it returns the basic
preprocessing of the claim — the same entities, claim type and key terms as
the normal path, plus the `preprocessing_method` marker — not an emptied
descriptor. -/
theorem claim_C5_amended (claim : String) :
    (preprocess_claim false claim).entities = extract_entities claim ∧
    (preprocess_claim false claim).claim_type = classify_claim_type claim ∧
    (preprocess_claim false claim).key_terms = extract_key_terms claim ∧
    (preprocess_claim false claim).preprocessing_method = some ("basic") ∧
    ∀ pathway_ok : Bool,
      (preprocess_claim pathway_ok claim).claim_type = classify_claim_type claim := by
  refine ⟨rfl, rfl, rfl, rfl, ?_⟩
  intro ok
  cases ok <;> rfl

/-- Claim C6 counterexample: on a timeout the generation stage returns the
deterministic mock fallback, but for a prompt whose embedded claim contains a
newline the fallback text is not valid JSON (`json.loads` rejects raw control
characters inside strings), contradicting the claim's validity assertion for
every prompt. -/
theorem claim_C6_counterexample :
    call_llama_api .timeout ("CLAIM TO ANALYZE: \"line one\nline two\" etc") =
      mock_response_for ("line one\nline two") ∧
    pyJsonLoads (mock_response_for ("line one\nline two")) = none ∧
    pyJsonLoads (mock_response_for ("stray \\x escape")) = none :=
  ⟨rfl, rfl, rfl⟩

/-- Claim C6 (amended): on a timeout, a non-200 status, or any exception the
generation stage deterministically returns the mock fallback; whenever the
claim embedded in the prompt contains no control characters and no
backslashes (a double quote can never be embedded, by construction of the
extraction), that fallback is a syntactically valid instance of the fixed
JSON shape with verdict `Unverified` and `confidence_score` 30. -/
theorem claim_C6_amended (prompt : String) (status : ℕ) (body msg : String)
    (hsafe : ∀ c ∈ (extract_claim_from_prompt prompt).data,
      0x20 ≤ c.toNat ∧ c ≠ '\\') :
    (call_llama_api .timeout prompt = get_mock_response prompt ∧
     call_llama_api (.httpError status body) prompt = get_mock_response prompt ∧
     call_llama_api (.exception msg) prompt = get_mock_response prompt) ∧
    pyJsonLoads (get_mock_response prompt) =
      some (.pyDict (mock_json_pairs (extract_claim_from_prompt prompt))) ∧
    pyDictGet (mock_json_pairs (extract_claim_from_prompt prompt)) ("verdict") =
      some (.pyStr "Unverified") ∧
    pyDictGet (mock_json_pairs (extract_claim_from_prompt prompt)) ("confidence_score") =
      some (.pyNum 30) := by
  refine ⟨⟨rfl, rfl, rfl⟩, ?_, rfl, rfl⟩
  unfold get_mock_response
  apply mock_parse_safe
  intro c hc
  have h1 := hsafe c hc
  have h2 : c ≠ '"' := extract_claim_no_quote prompt c hc
  simp [jsonSafeChar, h1.1, h1.2, h2]

/-- Witness for claim C6 at a concrete prompt. -/
theorem claim_C6_witness :
    pyJsonLoads (get_mock_response ("CLAIM TO ANALYZE: \"The Earth is flat\"")) =
      some (.pyDict (mock_json_pairs ("The Earth is flat"))) := by
  have h := claim_C6_amended ("CLAIM TO ANALYZE: \"The Earth is flat\"") 500
    ("server error") ("boom") (by decide)
  exact h.2.1

/-- Claim C7: the universal response parser is specified never to raise to
its caller.  The code can raise: on the raw text `"verdict: disputed"` the
verdict standardizer reaches the `VerdictType.DISPUTED` reference, which is
not a member of the enum, so an `AttributeError` escapes
`_parse_universal_response` (only `json.JSONDecodeError` and `KeyError` are
caught there).  The remaining conjuncts confirm the parts of the claim the
code does satisfy: malformed JSON yields the category fallback with
confidence 30, and missing verdict/explanation fields are defaulted. -/
theorem claim_C7_parser_raises :
    parse_universal_response ("verdict: disputed") ("test claim") .general [] =
      .error (.attributeError
        ("type object \x27VerdictType\x27 has no attribute \x27DISPUTED\x27")) ∧
    parse_universal_response ("\x7bnot valid json\x7d") ("test claim") .general [] =
      .ok (generate_intelligent_fallback_response ("test claim") .general
        ("parsing_error")) ∧
    pyDictGet (generate_intelligent_fallback_response ("test claim") .general
      ("parsing_error")) ("confidence_score") = some (.pyNum 30.0) ∧
    (parse_universal_response ("\x7b\"confidence_score\": 42\x7d") ("test claim")
        .general []).map
        (fun d => (pyDictGet d ("verdict"), pyDictGet d ("explanation"))) =
      .ok (some (.pyStr "UNVERIFIED"),
        some (.pyStr "Analysis completed for general claim: test claim")) :=
  ⟨rfl, rfl, rfl, rfl⟩

/-- Claim C8: with 60 records inserted in order (ids 1..60), the history
query with `limit=10, offset=5` returns exactly the records with ids 55 down
to 46, in strictly descending order. -/
theorem claim_C8_history_pagination :
    ((addDummyResults MemoryStore.init 60).store.map FactRecord.id) =
      List.range' 1 60 ∧
    (get_history (addDummyResults MemoryStore.init 60) (some 10) (some 5)).map
      HistoryEntry.id = [55, 54, 53, 52, 51, 50, 49, 48, 47, 46] ∧
    strictDescBool
      ((get_history (addDummyResults MemoryStore.init 60) (some 10) (some 5)).map
        HistoryEntry.id) = true :=
  ⟨rfl, rfl, rfl⟩

/-- Claim C9: the complexity score is a function of the word count, the
subordinate-conjunction hits, and the digit-run count; it is monotonically
non-decreasing in the word count and the digit-run count (the other count
held fixed), and never exceeds 5. -/
theorem claim_C9_complexity_monotone :
    (∀ claim : String, calculate_complexity claim =
      complexityOf (countWords claim)
        (subordinate_words.countP (fun w => strIn w (pyLower claim)))
        (countDigitRuns claim)) ∧
    (∀ wc wc2 sub dr dr2 : ℕ, wc ≤ wc2 → dr ≤ dr2 →
      complexityOf wc sub dr ≤ complexityOf wc2 sub dr2) ∧
    (∀ claim : String, calculate_complexity claim ≤ 5) := by
  refine ⟨fun _ => rfl, ?_, ?_⟩
  · intro wc wc2 sub dr dr2 h1 h2
    unfold complexityOf
    simp only [pyMin_eq_min]
    apply min_le_min _ le_rfl
    have hq1 : (wc : ℚ) ≤ wc2 := Nat.cast_le.mpr h1
    have hq2 : (dr : ℚ) ≤ dr2 := Nat.cast_le.mpr h2
    have hwc : (wc : ℚ) / 10 ≤ (wc2 : ℚ) / 10 := by gcongr
    have hdr : (dr : ℚ) * 0.3 ≤ (dr2 : ℚ) * 0.3 := by
      apply mul_le_mul_of_nonneg_right hq2
      norm_num
    exact add_le_add (add_le_add (min_le_min hwc le_rfl) le_rfl) hdr
  · intro claim
    unfold calculate_complexity
    simp only [pyMin_eq_min]
    exact min_le_right _ _

/-- Witness for claim C9 at concrete counts. -/
theorem claim_C9_witness :
    (3 : ℕ) ≤ 10 ∧ (0 : ℕ) ≤ 2 ∧ complexityOf 3 1 0 ≤ complexityOf 10 1 2 :=
  ⟨by decide, by decide,
    claim_C9_complexity_monotone.2.1 3 10 1 0 2 (by decide) (by decide)⟩

/-- Claim C10: `get_all` applies `limit` and `offset` only when they are
truthy, so `limit=0` returns every stored record, `offset=0` or `offset=None`
skips nothing, and with a falsy limit the result is the full log sorted by
descending id, for any store. -/
theorem claim_C10_get_all_truthiness (ms : MemoryStore) (lim : Option ℕ) :
    ms.get_all lim (some 0) = ms.get_all lim none ∧
    ms.get_all (some 0) (some 0) = sortByIdDesc ms.store ∧
    ms.get_all (some 0) none = sortByIdDesc ms.store ∧
    ms.get_all none none = sortByIdDesc ms.store ∧
    ms.get_all none (some 0) = sortByIdDesc ms.store :=
  ⟨rfl, rfl, rfl, rfl, rfl⟩

end Theorems

end FactChecker



